import Mathlib

/-!
Verification of the JUML repository: shallow embedding of the
structural-model extractors (src/utils/parser.py), the manual model loader,
the data model (src/utils/data_models.py) and the heuristic code analyzer
(src/utils/code_analyzer.py), together with proofs settling the frozen
claims about them.

Strings are modelled as lists of characters.  The Python `re` usages are
modelled by a small backtracking matcher over a syntax of exactly the
regular-expression constructs the source patterns use (literals, classes,
alternation, greedy and lazy repetition, capturing groups, negative
lookahead, the dollar anchor and word boundaries at pattern edges), with
Python's leftmost, backtracking, non-overlapping `finditer` semantics.
-/

namespace JUML

abbrev Str := List Char

/-- Python re `\w` (ASCII range, which is all the source inputs use). -/
def isWordChar (c : Char) : Bool :=
  (97 ≤ c.toNat && c.toNat ≤ 122) || (65 ≤ c.toNat && c.toNat ≤ 90) ||
  (48 ≤ c.toNat && c.toNat ≤ 57) || c = '_'

/-- Python re `\s` and `str.strip` whitespace (ASCII). -/
def isSpaceChar (c : Char) : Bool :=
  c = ' ' || c = '\t' || c = '\n' || c = '\r' ||
  c = Char.ofNat 11 || c = Char.ofNat 12

/-- Python re `\d`. -/
def isDigitChar (c : Char) : Bool :=
  48 ≤ c.toNat && c.toNat ≤ 57

/-- The opening brace character. -/
def lb : Char := Char.ofNat 123

/-- The closing brace character. -/
def rb : Char := Char.ofNat 125

/-- If the first list is a prefix of the second, drop it and return the rest. -/
def dropLit : Str → Str → Option Str
  | [], s => some s
  | _ :: _, [] => none
  | c :: cs, d :: ds => if c = d then dropLit cs ds else none

/-- Boolean prefix test (Python `str.startswith`). -/
def isPrefixB (p s : Str) : Bool :=
  (dropLit p s).isSome

/-- Boolean suffix test (Python `str.endswith`). -/
def isSuffixB (p s : Str) : Bool :=
  isPrefixB p.reverse s.reverse

/-- Python `str.strip()`: remove leading and trailing whitespace. -/
def stripStr (s : Str) : Str :=
  ((s.dropWhile fun c => isSpaceChar c).reverse.dropWhile fun c => isSpaceChar c).reverse

/-- Python `str.split(sep)` for a one-character separator: empty pieces kept,
the result is never empty. -/
def splitChar (sep : Char) : Str → List Str
  | [] => [[]]
  | c :: rest =>
    if c = sep then [] :: splitChar sep rest
    else
      match splitChar sep rest with
      | [] => [[c]]
      | g :: gs => (c :: g) :: gs

/-- Index of the first occurrence of `sub` in `s` at or after offset `pos`
(the scan starts at the suffix `s`; `pos` is the absolute index of that
suffix).  Python `str.find` returning -1 is modelled as `none`. -/
def findSubAux (sub : Str) : Str → Nat → Option Nat
  | s, pos =>
    if isPrefixB sub s then some pos
    else
      match s with
      | [] => none
      | _ :: t => findSubAux sub t (pos + 1)

/-- Python `code.find(sub, start)`. -/
def findFrom (s sub : Str) (start : Nat) : Option Nat :=
  findSubAux sub (s.drop start) start

/-- Python `sub in s` substring test. -/
def containsSub (s sub : Str) : Bool :=
  (findFrom s sub 0).isSome

/-- Python `str.replace(old, new)` (all non-overlapping occurrences,
left to right). -/
def replaceSubAux (old new : Str) : Nat → Str → Str
  | _, [] => []
  | 0, s => s
  | fuel + 1, c :: rest =>
    if 0 < old.length ∧ isPrefixB old (c :: rest) = true then
      -- dropping the matched occurrence: (c :: rest).drop old.length
      new ++ replaceSubAux old new fuel (rest.drop (old.length - 1))
    else
      c :: replaceSubAux old new fuel rest

/-- Python `str.replace(old, new)` (all non-overlapping occurrences, left
to right).  Each step of the scan consumes at least one character, so a
fuel equal to the length is enough for the zero-fuel case never to be
reached. -/
def replaceSub (old new : Str) (s : Str) : Str :=
  replaceSubAux old new s.length s

/-- Regular-expression syntax: exactly the constructs appearing in the
source patterns.  `opt`, `star` are greedy, `lazyStar` is lazy; `grp` is a
numbered capturing group; `nla` is a negative lookahead; `eos` is Python's
non-MULTILINE dollar (end of input, or just before a trailing newline);
`nwb` is the zero-width test that the next character is not a word
character (how a trailing word boundary behaves after a word character). -/
inductive RE where
  | eps : RE
  | lit : Str → RE
  | cls : (Char → Bool) → RE
  | seq : RE → RE → RE
  | alt : RE → RE → RE
  | opt : RE → RE
  | star : RE → RE
  | lazyStar : RE → RE
  | grp : Nat → RE → RE
  | nla : RE → RE
  | eos : RE
  | nwb : RE

/-- Greedy plus, as in the source patterns. -/
def RE.plus (a : RE) : RE := .seq a (.star a)

/-- Captured groups of one match attempt: most recent capture first, so a
lookup takes the first entry, matching Python's last-capture-wins. -/
abbrev Caps := List (Nat × Str)

def capLookup (caps : Caps) (n : Nat) : Option Str :=
  (caps.find? fun e => e.1 = n).map (·.2)

/-- Backtracking matcher in continuation style.  `reM fuel r s caps k`
matches `r` against a prefix of `s`, extending `caps`, and calls `k` with
the remaining suffix; alternatives are tried in Python's order (greedy
first for `opt`/`star`, empty first for `lazyStar`).  The fuel bounds the
number of repetition unfoldings; every starred sub-pattern in the source
consumes at least one character per iteration, so a fuel of one more than
the input length is never the limiting factor. -/
def reM : Nat → RE → Str → Caps → (Str → Caps → Option Caps) → Option Caps
  | 0, _, _, _, _ => none
  | fuel + 1, r, s, caps, k =>
    match r with
    | .eps => k s caps
    | .lit cs =>
      match dropLit cs s with
      | some s1 => k s1 caps
      | none => none
    | .cls p =>
      match s with
      | [] => none
      | c :: s1 => if p c then k s1 caps else none
    | .seq a b => reM fuel a s caps fun s1 c1 => reM fuel b s1 c1 k
    | .alt a b => (reM fuel a s caps k) <|> (reM fuel b s caps k)
    | .opt a => (reM fuel a s caps k) <|> k s caps
    | .star a =>
      (reM fuel a s caps fun s1 c1 => reM fuel (.star a) s1 c1 k) <|> k s caps
    | .lazyStar a =>
      (k s caps) <|> reM fuel a s caps fun s1 c1 => reM fuel (.lazyStar a) s1 c1 k
    | .grp n a =>
      reM fuel a s caps fun s1 c1 => k s1 ((n, s.take (s.length - s1.length)) :: c1)
    | .nla a =>
      match reM fuel a s caps (fun _ c1 => some c1) with
      | some _ => none
      | none => k s caps
    | .eos => if s.isEmpty || s == ['\n'] then k s caps else none
    | .nwb =>
      match s with
      | [] => k [] caps
      | c :: s1 => if isWordChar c then none else k (c :: s1) caps

/-- Number of syntax nodes of a pattern, used to size the matcher's fuel. -/
def reSize : RE → Nat
  | .eps | .eos | .nwb => 1
  | .lit _ | .cls _ => 1
  | .seq a b | .alt a b => 1 + reSize a + reSize b
  | .opt a | .star a | .lazyStar a | .grp _ a | .nla a => 1 + reSize a

/-- Anchored match attempt at the start of `s`; on success the returned
captures include group 0 (the whole match).  The fuel bounds the depth of
nested matcher calls: along any chain each level decrements it once, and a
chain visits each pattern node at most once per repetition step; since
every starred sub-pattern of the source consumes at least one character
per iteration, `(length + 2) * (size + 2)` strictly dominates the depth,
so the zero-fuel branch is unreachable and the matcher implements exactly
the backtracking order of Python `re`. -/
def reMatchAt (r : RE) (s : Str) : Option Caps :=
  reM ((s.length + 2) * (reSize r + 2)) r s [] fun rest caps =>
    some ((0, s.take (s.length - rest.length)) :: caps)

/-- One match produced by `finditer`: its starting offset and its captures. -/
structure RMatch where
  start : Nat
  caps : Caps
deriving DecidableEq, Repr

def RMatch.group (m : RMatch) (n : Nat) : Option Str :=
  capLookup m.caps n

def RMatch.group0 (m : RMatch) : Str :=
  (capLookup m.caps 0).getD []

/-- Python `re.finditer`: scan left to right, yield non-overlapping matches,
advancing one position past an empty match; also attempts the position at
the end of the input.  `pos` is the absolute offset of the suffix `s`. -/
def finditerAux (r : RE) : Nat → (s : Str) → (pos : Nat) → List RMatch
  | _, [], pos =>
    match reMatchAt r [] with
    | some caps => [⟨pos, caps⟩]
    | none => []
  | 0, _, _ => []
  | fuel + 1, s, pos =>
    match reMatchAt r s with
    | some caps =>
      let n := ((capLookup caps 0).getD []).length
      if n = 0 then ⟨pos, caps⟩ :: finditerAux r fuel s.tail (pos + 1)
      -- advancing past the match: continue at s.drop n
      else ⟨pos, caps⟩ :: finditerAux r fuel (s.drop n) (pos + n)
    | none => finditerAux r fuel s.tail (pos + 1)

/-- Each scan step advances at least one position, so a fuel equal to the
length reaches the end-of-text attempt of the first equation. -/
def finditer (r : RE) (s : Str) : List RMatch :=
  finditerAux r s.length s 0

/-- Python `re.search`: the first match, if any. -/
def reSearch (r : RE) (s : Str) : Option RMatch :=
  (finditer r s).head?

/-- Shorthand for a literal taken from a string. -/
def lits (s : String) : RE := .lit s.data

/-- The pattern fragment `\s*`. -/
def wsP : RE := .star (.cls isSpaceChar)

/-- The pattern fragment `\s+`. -/
def ws1 : RE := RE.plus (.cls isSpaceChar)

/-- The pattern fragment `\w+`. -/
def wordP : RE := RE.plus (.cls isWordChar)

/-- The pattern fragment `.` outside DOTALL mode (anything but newline). -/
def dotP : RE := .cls fun c => c ≠ '\n'

/-- The pattern fragment `.` under `re.DOTALL`, and `[\s\S]`. -/
def anyP : RE := .cls fun _ => true

/-! ## The structural data model (src/utils/data_models.py)

Pydantic models become plain structures; field defaults are kept.  A
method parameter is a Python `Dict[str, str]`, modelled as an ordered
association list of string pairs (Python dicts preserve insertion order). -/

abbrev PDict := List (String × String)

structure Attribute where
  name : String
  type : String := ""
  visibility : String := "+"
  is_static : Bool := false
deriving DecidableEq, Repr

structure Method where
  name : String
  return_type : String := ""
  parameters : List PDict := []
  visibility : String := "+"
  is_static : Bool := false
  is_abstract : Bool := false
deriving DecidableEq, Repr

structure Relationship where
  source : String
  target : String
  type : String
  label : String := ""
  multiplicity : String := ""
deriving DecidableEq, Repr

structure ClassDefinition where
  name : String
  attributes : List Attribute := []
  methods : List Method := []
  is_abstract : Bool := false
  is_interface : Bool := false
  package : Option String := some ""
deriving DecidableEq, Repr

structure UMLDiagram where
  classes : List ClassDefinition := []
  relationships : List Relationship := []
deriving DecidableEq, Repr

/-! ## JavaParser (src/utils/parser.py, lines 149-295)

The three regular expressions of the source, transliterated
constructor-for-construct; group numbers are the source's. -/

/-- Source pattern:
`(public\s+|private\s+|protected\s+|\s*)(abstract\s+)?(class|interface)\s+(\w+)(\s+extends\s+(\w+))?(\s+implements\s+([^{]+))?` -/
def javaClassPat : RE :=
  .seq (.grp 1 (.alt (.seq (lits "public") ws1)
         (.alt (.seq (lits "private") ws1)
          (.alt (.seq (lits "protected") ws1) wsP))))
  (.seq (.opt (.grp 2 (.seq (lits "abstract") ws1)))
  (.seq (.grp 3 (.alt (lits "class") (lits "interface")))
  (.seq ws1
  (.seq (.grp 4 wordP)
  (.seq (.opt (.grp 5 (.seq ws1 (.seq (lits "extends") (.seq ws1 (.grp 6 wordP))))))
        (.opt (.grp 7 (.seq ws1 (.seq (lits "implements")
                (.seq ws1 (.grp 8 (RE.plus (.cls fun c => c != lb)))))))))))))

/-- Source pattern:
`(public|private|protected)?\s+(static\s+)?(final\s+)?(\w+)\s+(\w+)\s*(?:=\s*[^;]+)?;` -/
def javaAttrPat : RE :=
  .seq (.opt (.grp 1 (.alt (lits "public") (.alt (lits "private") (lits "protected")))))
  (.seq ws1
  (.seq (.opt (.grp 2 (.seq (lits "static") ws1)))
  (.seq (.opt (.grp 3 (.seq (lits "final") ws1)))
  (.seq (.grp 4 wordP)
  (.seq ws1
  (.seq (.grp 5 wordP)
  (.seq wsP
  (.seq (.opt (.seq (lits "=") (.seq wsP (RE.plus (.cls fun c => c != ';')))))
        (lits ";")))))))))

/-- Source pattern:
`(public|private|protected)?\s+(static\s+)?(abstract\s+)?(\w+)\s+(\w+)\s*\((.*?)\)\s*(?:\{|;)` -/
def javaMethodPat : RE :=
  .seq (.opt (.grp 1 (.alt (lits "public") (.alt (lits "private") (lits "protected")))))
  (.seq ws1
  (.seq (.opt (.grp 2 (.seq (lits "static") ws1)))
  (.seq (.opt (.grp 3 (.seq (lits "abstract") ws1)))
  (.seq (.grp 4 wordP)
  (.seq ws1
  (.seq (.grp 5 wordP)
  (.seq wsP
  (.seq (.lit ['('])
  (.seq (.grp 6 (.lazyStar dotP))
  (.seq (.lit [')'])
  (.seq wsP (.alt (.lit [lb]) (lits ";")))))))))))))

/-- The depth-balanced scan of the source (both pattern parsers): starting
just after an opening brace with `bc` open brackets, advance `idx` until the
count returns to zero or the text ends, returning the final index. -/
def scanBalance : Str → Nat → Nat → Nat
  | [], _, idx => idx
  | c :: rest, bc, idx =>
    if bc = 0 then idx
    else scanBalance rest (if c = lb then bc + 1 else if c = rb then bc - 1 else bc) (idx + 1)

/-- Python slice `code[a:b]`. -/
def slice (s : Str) (a b : Nat) : Str :=
  (s.drop a).take (b - a)

/-- First-pass class names of the Java parser: group 4 of every match. -/
def javaClassNames (cs : Str) : List Str :=
  (finditer javaClassPat cs).map fun m => (m.group 4).getD []

/-- Attribute list extracted from one Java class body (lines 227-249). -/
def javaAttrsOf (body : Str) : List Attribute :=
  (finditer javaAttrPat body).foldl
    (fun acc am =>
      let visibility :=
        if am.group 1 == some "private".data then "-"
        else if am.group 1 == some "protected".data then "#"
        else "+"
      acc ++ [{ name := String.mk ((am.group 5).getD []),
                type := String.mk ((am.group 4).getD []),
                visibility := visibility,
                is_static := (am.group 2).isSome }]) []

/-- Parameter list from a Java parameter string (lines 268-277): split on
commas; a piece containing a space is split on spaces into type and name. -/
def javaParamsOf (params_str : Str) : List PDict :=
  if params_str.isEmpty then []
  else
    (splitChar ',' params_str).foldl
      (fun ps p =>
        let p := stripStr p
        if containsSub p [' '] then
          let parts := splitChar ' ' p
          ps ++ [[("name", String.mk ((parts.get? 1).getD [])),
                  ("type", String.mk ((parts.get? 0).getD []))]]
        else ps) []

/-- Method list extracted from one Java class body (lines 251-288). -/
def javaMethodsOf (body : Str) : List Method :=
  (finditer javaMethodPat body).foldl
    (fun acc mm =>
      let visibility :=
        if mm.group 1 == some "private".data then "-"
        else if mm.group 1 == some "protected".data then "#"
        else "+"
      acc ++ [{ name := String.mk ((mm.group 5).getD []),
                return_type := String.mk ((mm.group 4).getD []),
                parameters := javaParamsOf (stripStr ((mm.group 6).getD [])),
                visibility := visibility,
                is_static := (mm.group 2).isSome,
                is_abstract := (mm.group 3).isSome }]) []

/-- The relationship appends of the Java parser's second pass for one
class match (lines 188-207): extends first, then each implements entry,
each guarded by membership in the first-pass name set. -/
def javaRelsOf (classNames : List Str) (className : Str) (ext impl : Option Str)
    (rels : List Relationship) : List Relationship :=
  let rels :=
    match ext with
    | some e =>
      if classNames.contains e then
        rels ++ [{ source := String.mk className, target := String.mk e,
                   type := "inheritance" }]
      else rels
    | none => rels
  match impl with
  | some s =>
    (splitChar ',' s).foldl
      (fun rs i =>
        if classNames.contains (stripStr i) then
          rs ++ [{ source := String.mk className, target := String.mk (stripStr i),
                   type := "implementation" }]
        else rs) rels
  | none => rels

/-- Second pass of the Java parser for one class match: relationships are
appended first, then the class body is located by `code.find(class_name)`
/ `code.find('{', ...)` and the class is appended; an unlocatable body
skips the class append only (the source's `continue`). -/
def javaStep (cs : Str) (classNames : List Str)
    (acc : List ClassDefinition × List Relationship) (m : RMatch) :
    List ClassDefinition × List Relationship :=
  let className := (m.group 4).getD []
  let rels := javaRelsOf classNames className (m.group 6) (m.group 8) acc.2
  match findFrom cs className 0 with
  | none => (acc.1, rels)
  | some nameIdx =>
    match findFrom cs [lb] nameIdx with
    | none => (acc.1, rels)
    | some class_start =>
      let class_end := scanBalance (cs.drop (class_start + 1)) 1 (class_start + 1)
      let class_body := slice cs (class_start + 1) (class_end - 1)
      (acc.1 ++ [{ name := String.mk className,
                   attributes := javaAttrsOf class_body,
                   methods := javaMethodsOf class_body,
                   is_abstract := (m.group 2).isSome,
                   is_interface := (m.group 3).getD [] == "interface".data }], rels)

/-- Embeds `JavaParser.parse`.  The source wraps the whole body in a
`try/except`; no operation in the body can raise, so the result is total. -/
def javaParse (code : String) : UMLDiagram :=
  let cs := code.data
  let ms := finditer javaClassPat cs
  let classNames := ms.map fun m => (m.group 4).getD []
  let out := ms.foldl (javaStep cs classNames) ([], [])
  { classes := out.1, relationships := out.2 }

/-! ## JavaScriptParser (src/utils/parser.py, lines 298-427) -/

/-- Source pattern: `class\s+(\w+)(?:\s+extends\s+(\w+))?\s*\{` -/
def jsClassPat : RE :=
  .seq (lits "class")
  (.seq ws1
  (.seq (.grp 1 wordP)
  (.seq (.opt (.seq ws1 (.seq (lits "extends") (.seq ws1 (.grp 2 wordP)))))
        (.seq wsP (.lit [lb])))))

/-- Source pattern:
`(?:static\s+)?(?:async\s+)?(?:get|set|constructor|\w+)\s*\([^)]*\)\s*\{` -/
def jsMethodPat : RE :=
  .seq (.opt (.seq (lits "static") ws1))
  (.seq (.opt (.seq (lits "async") ws1))
  (.seq (.alt (lits "get") (.alt (lits "set") (.alt (lits "constructor") wordP)))
  (.seq wsP
  (.seq (.lit ['('])
  (.seq (.star (.cls fun c => c != ')'))
  (.seq (.lit [')'])
  (.seq wsP (.lit [lb]))))))))

/-- Source pattern (used with `re.search` on a method signature):
`(?:static\s+)?(?:async\s+)?(?:get|set|\w+)` -/
def jsNamePat : RE :=
  .seq (.opt (.seq (lits "static") ws1))
  (.seq (.opt (.seq (lits "async") ws1))
        (.alt (lits "get") (.alt (lits "set") wordP)))

/-- Source pattern: `\((.*?)\)` -/
def jsParamsPat : RE :=
  .seq (.lit ['(']) (.seq (.grp 1 (.lazyStar dotP)) (.lit [')']))

/-- Source pattern: `constructor\s*\([^)]*\)\s*\{([\s\S]*?)(?:\}|$)` -/
def jsCtorPat : RE :=
  .seq (lits "constructor")
  (.seq wsP
  (.seq (.lit ['('])
  (.seq (.star (.cls fun c => c != ')'))
  (.seq (.lit [')'])
  (.seq wsP
  (.seq (.lit [lb])
  (.seq (.grp 1 (.lazyStar anyP))
        (.alt (.lit [rb]) .eos))))))))

/-- Source pattern: `this\.(\w+)\s*=` -/
def jsThisAttrPat : RE :=
  .seq (lits "this.") (.seq (.grp 1 wordP) (.seq wsP (lits "=")))

/-- Source pattern: `static\s+(\w+)\s*=` -/
def jsStaticAttrPat : RE :=
  .seq (lits "static") (.seq ws1 (.seq (.grp 1 wordP) (.seq wsP (lits "="))))

/-- Method extraction for one JavaScript class body (lines 344-390). -/
def jsMethodsOf (class_body : Str) : List Method :=
  (finditer jsMethodPat class_body).foldl
    (fun acc mm =>
      let method_def := mm.group0
      let is_static := containsSub method_def "static".data
      let method_name? : Option Str :=
        if containsSub method_def "constructor".data then some "constructor".data
        else
          match reSearch jsNamePat method_def with
          | some nm =>
            let n := nm.group0
            let n := if containsSub n "static".data then
                       stripStr (replaceSub "static".data [] n) else n
            let n := if containsSub n "async".data then
                       stripStr (replaceSub "async".data [] n) else n
            some n
          | none => none
      match method_name? with
      | none => acc
      | some method_name =>
        let params :=
          match reSearch jsParamsPat method_def with
          | some pm =>
            let params_str := (pm.group 1).getD []
            if params_str.isEmpty then []
            else
              (splitChar ',' params_str).foldl
                (fun ps p =>
                  let p := stripStr p
                  if p.isEmpty then ps
                  else
                    let p := if containsSub p ['='] then
                               stripStr (((splitChar '=' p).get? 0).getD []) else p
                    ps ++ [[("name", String.mk p), ("type", "")]]) []
          | none => []
        acc ++ [{ name := String.mk method_name,
                  parameters := params,
                  visibility := "+",
                  is_static := is_static }]) []

/-- Attribute extraction for one JavaScript class body (lines 392-420):
constructor `this.x =` attributes first, then `static x =` attributes. -/
def jsAttrsOf (class_body : Str) : List Attribute :=
  let ctorAttrs :=
    match reSearch jsCtorPat class_body with
    | some cm =>
      let ctor_body := (cm.group 1).getD []
      (finditer jsThisAttrPat ctor_body).map fun am =>
        { name := String.mk ((am.group 1).getD []), visibility := "+" : Attribute }
    | none => []
  let staticAttrs :=
    (finditer jsStaticAttrPat class_body).map fun am =>
      { name := String.mk ((am.group 1).getD []), visibility := "+",
        is_static := true : Attribute }
  ctorAttrs ++ staticAttrs

/-- Second pass body for one JavaScript class match: the inheritance
relationship is recorded unconditionally (no declared-name check in the
source), then the class body is located from the match start. -/
def jsStep (cs : Str) (acc : List ClassDefinition × List Relationship)
    (m : RMatch) : List ClassDefinition × List Relationship :=
  let class_name := (m.group 1).getD []
  let rels :=
    match m.group 2 with
    | some e =>
      acc.2 ++ [{ source := String.mk class_name, target := String.mk e,
                  type := "inheritance" }]
    | none => acc.2
  match findFrom cs [lb] m.start with
  | none => (acc.1, rels)
  | some class_start =>
    let class_end := scanBalance (cs.drop (class_start + 1)) 1 (class_start + 1)
    let class_body := slice cs (class_start + 1) (class_end - 1)
    (acc.1 ++ [{ name := String.mk class_name,
                 methods := jsMethodsOf class_body,
                 attributes := jsAttrsOf class_body }], rels)

/-- Embeds `JavaScriptParser.parse`; total for the same reason as `javaParse`. -/
def jsParse (code : String) : UMLDiagram :=
  let cs := code.data
  let ms := finditer jsClassPat cs
  let out := ms.foldl (jsStep cs) ([], [])
  { classes := out.1, relationships := out.2 }

/-- Class names declared in JavaScript input: group 1 of the class-signature
matches (the JavaScript parser keeps no such set itself). -/
def jsClassNamesOf (code : String) : List Str :=
  (finditer jsClassPat code.data).map fun m => (m.group 1).getD []

/-! ## PythonParser (src/utils/parser.py, lines 15-146)

The source walks the tree returned by `ast.parse`.  The fragment of the
Python AST the parser inspects is embedded as an inductive type; every
node shape the parser does not inspect is collapsed into an `other`
constructor (`isinstance` checks against it fail, as in the source). -/

inductive PyExpr where
  | name (id : String)
  | noneConst
  | subscript (value : PyExpr)
  | exprOther
deriving DecidableEq, Repr

structure PyArg where
  arg : String
  annot : Option PyExpr
deriving DecidableEq, Repr

inductive PyStmt where
  | classDef (name : String) (bases : List PyExpr) (decorator_list : List PyExpr)
      (body : List PyStmt)
  | functionDef (name : String) (args : List PyArg) (decorator_list : List PyExpr)
      (returns : Option PyExpr) (body : List PyStmt)
  | annAssign (target : PyExpr) (annot : PyExpr)
  | assign (targets : List PyExpr)
  | stmtOther
deriving Repr

/-- The class-like nodes discovered by `ast.walk`. -/
structure PyClassNode where
  cname : String
  bases : List PyExpr
  decorator_list : List PyExpr
  body : List PyStmt

mutual

/-- Number of statement nodes (at least one per node), sizing the fuel of
the tree walk. -/
def stmtSize : PyStmt → Nat
  | .classDef _ _ _ body => 1 + stmtsSize body
  | .functionDef _ _ _ _ body => 1 + stmtsSize body
  | .annAssign _ _ => 1
  | .assign _ => 1
  | .stmtOther => 1

def stmtsSize : List PyStmt → Nat
  | [] => 1
  | s :: rest => 1 + stmtSize s + stmtsSize rest

end

/-- Embeds `ast.walk` restricted to `ClassDef` nodes: breadth-first over the
statement tree (the walk keeps a queue, pops the front and appends each
node's children at the back). -/
def walkClassesAux : Nat → List PyStmt → List PyClassNode
  | _, [] => []
  | 0, _ => []
  | fuel + 1, .classDef n b d body :: rest =>
    ⟨n, b, d, body⟩ :: walkClassesAux fuel (rest ++ body)
  | fuel + 1, .functionDef _ _ _ _ body :: rest => walkClassesAux fuel (rest ++ body)
  | fuel + 1, .annAssign _ _ :: rest => walkClassesAux fuel rest
  | fuel + 1, .assign _ :: rest => walkClassesAux fuel rest
  | fuel + 1, .stmtOther :: rest => walkClassesAux fuel rest

/-- Because `ast.walk` keeps a queue; every step pops one statement and enqueues
its children, and the combined node count of the queue strictly decreases,
so `stmtsSize` many steps always drain the queue. -/
def walkClasses (q : List PyStmt) : List PyClassNode :=
  walkClassesAux (stmtsSize q) q

/-- Python `str.startswith` on model strings. -/
def pyStarts (s p : String) : Bool := isPrefixB p.data s.data

/-- Python `str.endswith` on model strings. -/
def pyEnds (s p : String) : Bool := isSuffixB p.data s.data

/-- Visibility of a Python class attribute (lines 58-62 and 81-85): a name
starting with a double underscore is private, a single underscore
protected, otherwise public — no dunder exemption here. -/
def pyAttrVisibility (n : String) : String :=
  if pyStarts n "__" then "-" else if pyStarts n "_" then "#" else "+"

/-- Visibility of a Python method (lines 96-100): the private rule exempts
dunder-style names (leading and trailing double underscore). -/
def pyMethodVisibility (n : String) : String :=
  if pyStarts n "__" && !pyEnds n "__" then "-"
  else if pyStarts n "_" then "#" else "+"

/-- Attribute type from an annotation (lines 64-69). -/
def pyAnnType (ann : PyExpr) : String :=
  match ann with
  | .name i => i
  | .subscript (.name i) => i ++ "[...]"
  | _ => ""

/-- Method return type (lines 122-128). -/
def pyRetType : Option PyExpr → String
  | none => ""
  | some (.name i) => i
  | some .noneConst => "None"
  | some _ => ""

/-- Method parameters (lines 113-120): `self` and `cls` are skipped
wherever they occur; an annotation contributes a type only when it is a
plain name. -/
def pyParamsOf (args : List PyArg) : List PDict :=
  args.foldl
    (fun ps a =>
      if a.arg ≠ "self" ∧ a.arg ≠ "cls" then
        let param_type :=
          match a.annot with
          | some (.name i) => i
          | _ => ""
        ps ++ [[("name", a.arg), ("type", param_type)]]
      else ps) []

/-- Member extraction from one class body (lines 53-139): attributes and
methods are appended to their own lists in body order. -/
def pyMembersOf (body : List PyStmt) : List Attribute × List Method :=
  body.foldl
    (fun acc item =>
      match item with
      | .annAssign (.name tid) ann =>
        (acc.1 ++ [{ name := tid, type := pyAnnType ann,
                     visibility := pyAttrVisibility tid }], acc.2)
      | .annAssign _ _ => acc
      | .assign targets =>
        (targets.foldl
          (fun as t =>
            match t with
            | .name tid => as ++ [{ name := tid, visibility := pyAttrVisibility tid : Attribute }]
            | _ => as) acc.1, acc.2)
      | .functionDef fname args decs returns _ =>
        let is_static := decs.any fun d => d == .name "staticmethod"
        let is_abstract := decs.any fun d => d == .name "abstractmethod"
        (acc.1, acc.2 ++ [{ name := fname,
                            return_type := pyRetType returns,
                            parameters := pyParamsOf args,
                            visibility := pyMethodVisibility fname,
                            is_static := is_static,
                            is_abstract := is_abstract }])
      | _ => acc) ([], [])

/-- Inheritance relationships from one class node's base list (lines
42-51): only bases that are plain names in the first-pass name set are
recorded. -/
def pyRelsOf (class_names : List String) (cname : String) (bases : List PyExpr)
    (rs : List Relationship) : List Relationship :=
  bases.foldl
    (fun rs b =>
      match b with
      | .name bid =>
        if class_names.contains bid then
          rs ++ [{ source := cname, target := bid, type := "inheritance" }]
        else rs
      | _ => rs) rs

/-- The class definition built for one discovered class node (lines
35-40 and 130-141): members from the body, the abstract flag from an
`abstractmethod` decorator name. -/
def pyClassOf (node : PyClassNode) : ClassDefinition :=
  { name := node.cname,
    attributes := (pyMembersOf node.body).1,
    methods := (pyMembersOf node.body).2,
    is_abstract := node.decorator_list.any fun d => d == .name "abstractmethod" }

/-- Second-pass body for one discovered class node. -/
def pyStep (class_names : List String) (acc : List ClassDefinition × List Relationship)
    (node : PyClassNode) : List ClassDefinition × List Relationship :=
  (acc.1 ++ [pyClassOf node],
   pyRelsOf class_names node.cname node.bases acc.2)

/-- Embeds `PythonParser.parse`, from the module body downwards (`ast.parse`
itself is CPython's, outside the repository; its failure path raises the
parser's ParseFailure and produces no model).  Both passes perform the same
walk: the first collects the class-name set, the second builds classes and
relationships. -/
def pythonParse (tree : List PyStmt) : UMLDiagram :=
  let nodes := walkClasses tree
  let class_names := nodes.map (·.cname)
  let out := nodes.foldl (pyStep class_names) ([], [])
  { classes := out.1, relationships := out.2 }

/-! ## ManualInputParser (src/utils/parser.py, lines 430-467) and the
serialized model format

The loader consumes the document produced by `json.loads`; the document
itself (not the JSON text) is the embedding's input.  Any exception in the
source body (missing key, pydantic validation failure, wrong shape) is
re-raised as one `ValueError`, modelled as `Except.error`: the conversion
either returns a complete model or fails with no model at all.  Pydantic
field validation is modelled strictly: a string field accepts exactly a
JSON string, a boolean field exactly a JSON boolean, `Optional[str]`
also accepts null, and unknown keys are ignored (pydantic's default). -/

inductive JValue where
  | jstr (s : String)
  | jbool (b : Bool)
  | jnull
  | jarr (xs : List JValue)
  | jobj (fields : List (String × JValue))

/-- Python `dict.get(k)` on an object document. -/
def getField (o : List (String × JValue)) (k : String) : Option JValue :=
  (o.find? fun e => e.1 == k).map (·.2)

def asStr : JValue → Except String String
  | .jstr s => .ok s
  | _ => .error "expected a string"

def asBool : JValue → Except String Bool
  | .jbool b => .ok b
  | _ => .error "expected a boolean"

/-- A field with a pydantic default: the default applies only when the key
is absent; a present value of the wrong type fails. -/
def fieldD (o : List (String × JValue)) (k : String) (f : JValue → Except String α)
    (d : α) : Except String α :=
  match getField o k with
  | none => .ok d
  | some v => f v

/-- A required pydantic field. -/
def fieldR (o : List (String × JValue)) (k : String) (f : JValue → Except String α) :
    Except String α :=
  match getField o k with
  | none => .error (k ++ " field required")
  | some v => f v

/-- Embeds `Attribute(**attr)`. -/
def parseAttribute : JValue → Except String Attribute
  | .jobj o =>
    match fieldR o "name" asStr with
    | .error e => .error e
    | .ok name =>
      match fieldD o "type" asStr "" with
      | .error e => .error e
      | .ok ty =>
        match fieldD o "visibility" asStr "+" with
        | .error e => .error e
        | .ok vis =>
          match fieldD o "is_static" asBool false with
          | .error e => .error e
          | .ok st => .ok { name := name, type := ty, visibility := vis, is_static := st }
  | _ => .error "attribute entry is not an object"

/-- The entries of one parameter dictionary of
`Method.parameters : List[Dict[str, str]]`: every value must be a string. -/
def exPairs : List (String × JValue) → Except String PDict
  | [] => .ok []
  | e :: es =>
    match asStr e.2 with
    | .error err => .error err
    | .ok v =>
      match exPairs es with
      | .error err => .error err
      | .ok rest => .ok ((e.1, v) :: rest)

def parsePDict : JValue → Except String PDict
  | .jobj o => exPairs o
  | _ => .error "parameter entry is not an object"

/-- Element-wise conversion of a sequence, stopping at the first failure
(the loader's for-append loops). -/
def exList (f : JValue → Except String α) : List JValue → Except String (List α)
  | [] => .ok []
  | v :: vs =>
    match f v with
    | .error e => .error e
    | .ok a =>
      match exList f vs with
      | .error e => .error e
      | .ok rest => .ok (a :: rest)

def parseListOf (f : JValue → Except String α) : JValue → Except String (List α)
  | .jarr xs => exList f xs
  | _ => .error "expected a sequence"

def parseParams : JValue → Except String (List PDict) :=
  parseListOf parsePDict

/-- Embeds `Method(**method)`. -/
def parseMethod : JValue → Except String Method
  | .jobj o =>
    match fieldR o "name" asStr with
    | .error e => .error e
    | .ok name =>
      match fieldD o "return_type" asStr "" with
      | .error e => .error e
      | .ok rt =>
        match fieldD o "parameters" parseParams [] with
        | .error e => .error e
        | .ok ps =>
          match fieldD o "visibility" asStr "+" with
          | .error e => .error e
          | .ok vis =>
            match fieldD o "is_static" asBool false with
            | .error e => .error e
            | .ok st =>
              match fieldD o "is_abstract" asBool false with
              | .error e => .error e
              | .ok ab =>
                .ok { name := name, return_type := rt, parameters := ps,
                      visibility := vis, is_static := st, is_abstract := ab }
  | _ => .error "method entry is not an object"

/-- Embeds `Relationship(**rel)`. -/
def parseRelationship : JValue → Except String Relationship
  | .jobj o =>
    match fieldR o "source" asStr with
    | .error e => .error e
    | .ok src =>
      match fieldR o "target" asStr with
      | .error e => .error e
      | .ok tgt =>
        match fieldR o "type" asStr with
        | .error e => .error e
        | .ok ty =>
          match fieldD o "label" asStr "" with
          | .error e => .error e
          | .ok lab =>
            match fieldD o "multiplicity" asStr "" with
            | .error e => .error e
            | .ok mult =>
              .ok { source := src, target := tgt, type := ty,
                    label := lab, multiplicity := mult }
  | _ => .error "relationship entry is not an object"

/-- Embeds `ClassDefinition.package : Optional[str]`. -/
def parsePackage : JValue → Except String (Option String)
  | .jstr s => .ok (some s)
  | .jnull => .ok none
  | _ => .error "expected a string or null"

/-- One class entry of the loader (lines 440-458): the attribute and
method sequences are converted first (as in the source), `name` is a
mandatory key, the remaining fields use `.get` defaults. -/
def parseClassDef : JValue → Except String ClassDefinition
  | .jobj o =>
    match fieldD o "attributes" (parseListOf parseAttribute) [] with
    | .error e => .error e
    | .ok attrs =>
      match fieldD o "methods" (parseListOf parseMethod) [] with
      | .error e => .error e
      | .ok meths =>
        match fieldR o "name" asStr with
        | .error e => .error e
        | .ok name =>
          match fieldD o "is_abstract" asBool false with
          | .error e => .error e
          | .ok ab =>
            match fieldD o "is_interface" asBool false with
            | .error e => .error e
            | .ok intf =>
              match fieldD o "package" parsePackage (some "") with
              | .error e => .error e
              | .ok pkg =>
                .ok { name := name, attributes := attrs, methods := meths,
                      is_abstract := ab, is_interface := intf, package := pkg }
  | _ => .error "class entry is not an object"

/-- Embeds `ManualInputParser.parse` on a decoded document: all classes first,
then all relationships; the first invalid field aborts the whole
conversion. -/
def manualParse (data : JValue) : Except String UMLDiagram :=
  match data with
  | .jobj o =>
    match parseListOf parseClassDef ((getField o "classes").getD (.jarr [])) with
    | .error e => .error e
    | .ok classes =>
      match parseListOf parseRelationship ((getField o "relationships").getD (.jarr [])) with
      | .error e => .error e
      | .ok rels => .ok { classes := classes, relationships := rels }
  | _ => .error "document is not an object"

/-- Pydantic `model_dump` of an Attribute. -/
def dumpAttr (a : Attribute) : JValue :=
  .jobj [("name", .jstr a.name), ("type", .jstr a.type),
         ("visibility", .jstr a.visibility), ("is_static", .jbool a.is_static)]

def dumpPDict (d : PDict) : JValue :=
  .jobj (d.map fun e => (e.1, .jstr e.2))

/-- Pydantic `model_dump` of a Method. -/
def dumpMethod (m : Method) : JValue :=
  .jobj [("name", .jstr m.name), ("return_type", .jstr m.return_type),
         ("parameters", .jarr (m.parameters.map dumpPDict)),
         ("visibility", .jstr m.visibility), ("is_static", .jbool m.is_static),
         ("is_abstract", .jbool m.is_abstract)]

/-- Embeds `ClassDefinition.to_dict` (src/utils/data_models.py, lines 41-49). -/
def classToDict (c : ClassDefinition) : JValue :=
  .jobj [("name", .jstr c.name),
         ("attributes", .jarr (c.attributes.map dumpAttr)),
         ("methods", .jarr (c.methods.map dumpMethod)),
         ("is_abstract", .jbool c.is_abstract),
         ("is_interface", .jbool c.is_interface),
         ("package", match c.package with | some s => .jstr s | none => .jnull)]

/-- Pydantic `model_dump` of a Relationship. -/
def dumpRel (r : Relationship) : JValue :=
  .jobj [("source", .jstr r.source), ("target", .jstr r.target),
         ("type", .jstr r.type), ("label", .jstr r.label),
         ("multiplicity", .jstr r.multiplicity)]

/-- Serialization of a model in the documented format: the class sequence
via the class-to-dictionary projection, the relationship sequence via the
relationship field dumps. -/
def serializeModel (m : UMLDiagram) : JValue :=
  .jobj [("classes", .jarr (m.classes.map classToDict)),
         ("relationships", .jarr (m.relationships.map dumpRel))]

/-! ## CodeAnalyzer (src/utils/code_analyzer.py)

The heuristic catalog's regular expressions, transliterated, then the
detection functions, metrics, complexity estimate and folder aggregation. -/

/-- Variant of `finditer` for a pattern with a leading `\b` followed by a word
character: a position qualifies only when it is the start of the text or
the previous character is not a word character (the complexity-count
patterns are the only ones using `\b`). -/
def finditerBAux (r : RE) : Nat → (s : Str) → (pos : Nat) → (prev : Option Char) → List RMatch
  | _, [], pos, prev =>
    if prev.all fun c => !isWordChar c then
      match reMatchAt r [] with
      | some caps => [⟨pos, caps⟩]
      | none => []
    else []
  | 0, _, _, _ => []
  | fuel + 1, s@(c :: t), pos, prev =>
    if prev.all fun c => !isWordChar c then
      match reMatchAt r s with
      | some caps =>
        let n := ((capLookup caps 0).getD []).length
        if n = 0 then ⟨pos, caps⟩ :: finditerBAux r fuel t (pos + 1) (some c)
        else ⟨pos, caps⟩ :: finditerBAux r fuel (s.drop n) (pos + n) ((s.take n).getLast?)
      | none => finditerBAux r fuel t (pos + 1) (some c)
    else finditerBAux r fuel t (pos + 1) (some c)

def finditerB (r : RE) (s : Str) : List RMatch :=
  finditerBAux r s.length s 0 none

/-- Source pattern (long_method):
`(?:public|private|protected)\s+(?:static\s+)?(?:\w+)\s+(\w+)\s*\([^)]*\)\s*(?:throws\s+[\w,\s]+\s*)?{(?:[^{}]|{[^{}]*})*}` -/
def longMethodPat : RE :=
  .seq (.alt (lits "public") (.alt (lits "private") (lits "protected")))
  (.seq ws1
  (.seq (.opt (.seq (lits "static") ws1))
  (.seq wordP
  (.seq ws1
  (.seq (.grp 1 wordP)
  (.seq wsP
  (.seq (.lit ['('])
  (.seq (.star (.cls fun c => c != ')'))
  (.seq (.lit [')'])
  (.seq wsP
  (.seq (.opt (.seq (lits "throws")
          (.seq ws1 (.seq (RE.plus (.cls fun c => isWordChar c || c = ',' || isSpaceChar c)) wsP))))
  (.seq (.lit [lb])
  (.seq (.star (.alt (.cls fun c => c != lb && c != rb)
                 (.seq (.lit [lb]) (.seq (.star (.cls fun c => c != lb && c != rb)) (.lit [rb])))))
        (.lit [rb]))))))))))))))

/-- Source pattern (too_many_parameters):
`(?:public|private|protected)\s+(?:static\s+)?(?:\w+)\s+(\w+)\s*\(([^)]*)\)` -/
def tooManyParamsPat : RE :=
  .seq (.alt (lits "public") (.alt (lits "private") (lits "protected")))
  (.seq ws1
  (.seq (.opt (.seq (lits "static") ws1))
  (.seq wordP
  (.seq ws1
  (.seq (.grp 1 wordP)
  (.seq wsP
  (.seq (.lit ['('])
  (.seq (.grp 2 (.star (.cls fun c => c != ')')))
        (.lit [')'])))))))))

/-- Source pattern (catch_exception): `catch\s*\(\s*Exception\s+\w+\s*\)` -/
def catchExceptionPat : RE :=
  .seq (lits "catch")
  (.seq wsP
  (.seq (.lit ['('])
  (.seq wsP
  (.seq (lits "Exception")
  (.seq ws1 (.seq wordP (.seq wsP (.lit [')']))))))))

/-- Source pattern (public_fields):
`public\s+(?:static\s+)?(?:final\s+)?(?!class|interface|enum)(\w+)\s+(\w+)` -/
def publicFieldsPat : RE :=
  .seq (lits "public")
  (.seq ws1
  (.seq (.opt (.seq (lits "static") ws1))
  (.seq (.opt (.seq (lits "final") ws1))
  (.seq (.nla (.alt (lits "class") (.alt (lits "interface") (lits "enum"))))
  (.seq (.grp 1 wordP) (.seq ws1 (.grp 2 wordP)))))))

/-- Source pattern (magic_numbers):
`(?:=|return|[,(+\-*/])\s*(-?\d+(?:\.\d+)?)\s*(?:[;,)]|$)` -/
def magicNumPat : RE :=
  .seq (.alt (.lit ['=']) (.alt (lits "return")
         (.cls fun c => c = ',' || c = '(' || c = '+' || c = '-' || c = '*' || c = '/')))
  (.seq wsP
  (.seq (.grp 1 (.seq (.opt (.lit ['-']))
          (.seq (RE.plus (.cls isDigitChar))
                (.opt (.seq (.lit ['.']) (RE.plus (.cls isDigitChar)))))))
  (.seq wsP (.alt (.cls fun c => c = ';' || c = ',' || c = ')') .eos))))

/-- Source exclusion pattern (magic_numbers), used with anchored
`re.match`: `(?:0|1|-1|100)` -/
def magicExcludePat : RE :=
  .alt (.lit ['0']) (.alt (.lit ['1']) (.alt (lits "-1") (lits "100")))

/-- Source pattern (todo_comments): `//\s*TODO|/\*\s*TODO` -/
def todoPat : RE :=
  .alt (.seq (lits "//") (.seq wsP (lits "TODO")))
       (.seq (lits "/*") (.seq wsP (lits "TODO")))

/-- Source pattern (empty_catch): `catch\s*\([^)]+\)\s*{\s*}` -/
def emptyCatchPat : RE :=
  .seq (lits "catch")
  (.seq wsP
  (.seq (.lit ['('])
  (.seq (RE.plus (.cls fun c => c != ')'))
  (.seq (.lit [')'])
  (.seq wsP (.seq (.lit [lb]) (.seq wsP (.lit [rb]))))))))

/-- Source pattern (complex_conditional):
`if\s*\([^{]+(&&|\|\|)[^{]+(&&|\|\|)` -/
def complexCondPat : RE :=
  .seq (lits "if")
  (.seq wsP
  (.seq (.lit ['('])
  (.seq (RE.plus (.cls fun c => c != lb))
  (.seq (.grp 1 (.alt (lits "&&") (lits "||")))
  (.seq (RE.plus (.cls fun c => c != lb))
        (.grp 2 (.alt (lits "&&") (lits "||"))))))))

/-- Source pattern (sql_injection):
`(?:executeQuery|executeUpdate|execute|prepareStatement)\s*\(\s*"[^"]*\+` -/
def sqlInjectionPat : RE :=
  .seq (.alt (lits "executeQuery") (.alt (lits "executeUpdate")
         (.alt (lits "execute") (lits "prepareStatement"))))
  (.seq wsP
  (.seq (.lit ['('])
  (.seq wsP
  (.seq (.lit ['"'])
  (.seq (.star (.cls fun c => c != '"')) (.lit ['+']))))))

/-- Source pattern (hardcoded_credentials):
`(?:password|pwd|passwd|secret|key)\s*=\s*"[^"]{3,}"` -/
def hardcodedCredsPat : RE :=
  .seq (.alt (lits "password") (.alt (lits "pwd")
         (.alt (lits "passwd") (.alt (lits "secret") (lits "key")))))
  (.seq wsP
  (.seq (.lit ['='])
  (.seq wsP
  (.seq (.lit ['"'])
  (.seq (.cls fun c => c != '"')
  (.seq (.cls fun c => c != '"')
  (.seq (.cls fun c => c != '"')
  (.seq (.star (.cls fun c => c != '"')) (.lit ['"'])))))))))

/-- Source pattern (insecure_randoms): `new\s+Random\s*\(` -/
def insecureRandomPat : RE :=
  .seq (lits "new") (.seq ws1 (.seq (lits "Random") (.seq wsP (.lit ['(']))))

/-- Source pattern (xxe_vulnerability):
`(?:DocumentBuilderFactory|SAXParserFactory|XMLInputFactory)` -/
def xxePat : RE :=
  .alt (lits "DocumentBuilderFactory") (.alt (lits "SAXParserFactory") (lits "XMLInputFactory"))

/-- Source pattern (log_injection):
`log(?:ger)?\.(?:debug|info|warning|error|severe)\s*\([^)]*\+\s*(?:\w+)` -/
def logInjectionPat : RE :=
  .seq (lits "log")
  (.seq (.opt (lits "ger"))
  (.seq (.lit ['.'])
  (.seq (.alt (lits "debug") (.alt (lits "info")
          (.alt (lits "warning") (.alt (lits "error") (lits "severe")))))
  (.seq wsP
  (.seq (.lit ['('])
  (.seq (.star (.cls fun c => c != ')'))
  (.seq (.lit ['+']) (.seq wsP wordP))))))))

/-- Source pattern (string_concatenation_in_loop):
`for\s*\([^{]+\{\s*(?:[^;]*;\s*)*\w+\s*\+=\s*"[^"]*"` -/
def strConcatLoopPat : RE :=
  .seq (lits "for")
  (.seq wsP
  (.seq (.lit ['('])
  (.seq (RE.plus (.cls fun c => c != lb))
  (.seq (.lit [lb])
  (.seq wsP
  (.seq (.star (.seq (.star (.cls fun c => c != ';')) (.seq (.lit [';']) wsP)))
  (.seq wordP
  (.seq wsP
  (.seq (lits "+=")
  (.seq wsP
  (.seq (.lit ['"'])
  (.seq (.star (.cls fun c => c != '"')) (.lit ['"'])))))))))))))

/-- Source pattern (instantiation_in_loop):
`for\s*\([^{]+\{\s*(?:[^;]*;\s*)*new\s+\w+` -/
def instLoopPat : RE :=
  .seq (lits "for")
  (.seq wsP
  (.seq (.lit ['('])
  (.seq (RE.plus (.cls fun c => c != lb))
  (.seq (.lit [lb])
  (.seq wsP
  (.seq (.star (.seq (.star (.cls fun c => c != ';')) (.seq (.lit [';']) wsP)))
  (.seq (lits "new") (.seq ws1 wordP))))))))

/-- Source pattern (inefficient_string_conversion):
`new\s+String\s*\(\s*(""|[^)]+\.toString\(\))` -/
def ineffStrPat : RE :=
  .seq (lits "new")
  (.seq ws1
  (.seq (lits "String")
  (.seq wsP
  (.seq (.lit ['('])
  (.seq wsP
  (.grp 1 (.alt (.lit ['"', '"'])
            (.seq (RE.plus (.cls fun c => c != ')'))
            (.seq (.lit ['.'])
            (.seq (lits "toString") (.seq (.lit ['(']) (.lit [')']))))))))))))

/-- Source pattern (singleton, DOTALL):
`private\s+static\s+\w+\s+\w+Instance.*?private\s+\w+\s*\(.*?public\s+static\s+\w+\s+getInstance` -/
def singletonPat : RE :=
  .seq (lits "private")
  (.seq ws1
  (.seq (lits "static")
  (.seq ws1
  (.seq wordP
  (.seq ws1
  (.seq wordP
  (.seq (lits "Instance")
  (.seq (.lazyStar anyP)
  (.seq (lits "private")
  (.seq ws1
  (.seq wordP
  (.seq wsP
  (.seq (.lit ['('])
  (.seq (.lazyStar anyP)
  (.seq (lits "public")
  (.seq ws1
  (.seq (lits "static")
  (.seq ws1 (.seq wordP (.seq ws1 (lits "getInstance")))))))))))))))))))))

/-- Source pattern (factory_method):
`(?:public|protected)\s+\w+\s+create\w+\s*\([^)]*\)` -/
def factoryPat : RE :=
  .seq (.alt (lits "public") (lits "protected"))
  (.seq ws1
  (.seq wordP
  (.seq ws1
  (.seq (lits "create")
  (.seq wordP
  (.seq wsP
  (.seq (.lit ['('])
  (.seq (.star (.cls fun c => c != ')')) (.lit [')'])))))))))

/-- Source pattern (observer):
`(?:implements|extends)\s+(?:\w+\.)*(?:Observer|Listener)` -/
def observerPat : RE :=
  .seq (.alt (lits "implements") (lits "extends"))
  (.seq ws1
  (.seq (.star (.seq wordP (.lit ['.'])))
        (.alt (lits "Observer") (lits "Listener"))))

/-- Source pattern (builder, DOTALL):
`class\s+\w+Builder.*?public\s+\w+\s+build\s*\(` -/
def builderPat : RE :=
  .seq (lits "class")
  (.seq ws1
  (.seq wordP
  (.seq (lits "Builder")
  (.seq (.lazyStar anyP)
  (.seq (lits "public")
  (.seq ws1
  (.seq wordP
  (.seq ws1 (.seq (lits "build") (.seq wsP (.lit ['('])))))))))))

/-- Source pattern (decorator, DOTALL):
`class\s+\w+(?:Decorator|Wrapper).*?implements\s+\w+.*?private\s+\w+\s+wrapped` -/
def decoratorPatRE : RE :=
  .seq (lits "class")
  (.seq ws1
  (.seq wordP
  (.seq (.alt (lits "Decorator") (lits "Wrapper"))
  (.seq (.lazyStar anyP)
  (.seq (lits "implements")
  (.seq ws1
  (.seq wordP
  (.seq (.lazyStar anyP)
  (.seq (lits "private")
  (.seq ws1 (.seq wordP (.seq ws1 (lits "wrapped")))))))))))))

/-- Findings of the oversized-method heuristic (line 235-251 of the
analyzer): method name, measured line count, threshold. -/
structure LongFinding where
  name : String
  lines : Nat
  threshold : Nat
  description : String
deriving DecidableEq, Repr

/-- Findings of the excess-parameters heuristic (lines 253-273). -/
structure ParamFinding where
  name : String
  parameter_count : Nat
  threshold : Nat
  description : String
deriving DecidableEq, Repr

/-- Findings of the magic-numbers heuristic (lines 275-288). -/
structure MagicFinding where
  number : String
  description : String
deriving DecidableEq, Repr

/-- Default-path findings; the source stores the (possibly truncated)
matched excerpt under the dictionary key named match. -/
structure GenFinding where
  excerpt : String
  description : String
deriving DecidableEq, Repr

/-- The source's 50-character preview truncation. -/
def truncate50 (s : Str) : String :=
  if 50 < s.length then String.mk (s.take 50 ++ "...".data) else String.mk s

def genFindings (pat : RE) (descr : String) (cs : Str) : List GenFinding :=
  (finditer pat cs).foldl
    (fun acc m => acc ++ [{ excerpt := truncate50 m.group0, description := descr }]) []

def longMethodDesc : String :=
  "Methods with too many lines may be doing too much and should be refactored."

def tooManyParamsDesc : String :=
  "Methods with too many parameters are hard to use and understand."

def magicNumDesc : String :=
  "Magic numbers should be replaced with named constants."

/-- Measured value of the oversized-method heuristic: the matched body's
newline count (`method_body.count ('\n')`). -/
def longLineCount (m : RMatch) : Nat := m.group0.count '\n'

/-- The finding record of the oversized-method heuristic. -/
def longFindingOf (m : RMatch) : LongFinding :=
  { name := String.mk ((m.group 1).getD []), lines := longLineCount m,
    threshold := 30, description := longMethodDesc }

/-- Measured value of the excess-parameters heuristic: the comma count of
the stripped parameter group, zero when it is empty. -/
def paramCountOf (m : RMatch) : Nat :=
  let params := stripStr ((m.group 2).getD [])
  if params.isEmpty then 0 else (splitChar ',' params).length

/-- The finding record of the excess-parameters heuristic. -/
def paramFindingOf (m : RMatch) : ParamFinding :=
  { name := String.mk ((m.group 1).getD []), parameter_count := paramCountOf m,
    threshold := 5, description := tooManyParamsDesc }

/-- The allow-list test of the magic-numbers heuristic: anchored
`re.match` of the exclusion pattern against the captured literal. -/
def magicIsExcluded (m : RMatch) : Bool :=
  (reMatchAt magicExcludePat ((m.group 1).getD [])).isSome

/-- The finding record of the magic-numbers heuristic. -/
def magicFindingOf (m : RMatch) : MagicFinding :=
  { number := String.mk ((m.group 1).getD []), description := magicNumDesc }

/-- The analyzer's `code_smells` result dictionary. -/
structure CodeSmells where
  long_method : List LongFinding
  too_many_parameters : List ParamFinding
  catch_exception : List GenFinding
  public_fields : List GenFinding
  magic_numbers : List MagicFinding
  todo_comments : List GenFinding
  empty_catch : List GenFinding
  complex_conditional : List GenFinding
deriving DecidableEq, Repr

/-- Embeds `CodeAnalyzer._detect_code_smells`. -/
def detectCodeSmells (code : String) : CodeSmells :=
  let cs := code.data
  { long_method :=
      (finditer longMethodPat cs).foldl
        (fun acc m => if 30 < longLineCount m then acc ++ [longFindingOf m] else acc) [],
    too_many_parameters :=
      (finditer tooManyParamsPat cs).foldl
        (fun acc m => if 5 < paramCountOf m then acc ++ [paramFindingOf m] else acc) [],
    catch_exception :=
      genFindings catchExceptionPat "Catching generic exceptions is usually bad practice." cs,
    public_fields :=
      genFindings publicFieldsPat
        "Public fields violate encapsulation. Consider using getters/setters." cs,
    magic_numbers :=
      (finditer magicNumPat cs).foldl
        (fun acc m => if magicIsExcluded m then acc else acc ++ [magicFindingOf m]) [],
    todo_comments :=
      genFindings todoPat "TODO comments indicate incomplete code that needs attention." cs,
    empty_catch :=
      genFindings emptyCatchPat
        "Empty catch blocks suppress exceptions without handling them." cs,
    complex_conditional :=
      genFindings complexCondPat
        "Complex conditionals can be difficult to understand. Consider simplifying." cs }

structure SecurityIssues where
  sql_injection : List GenFinding
  hardcoded_credentials : List GenFinding
  insecure_randoms : List GenFinding
  xxe_vulnerability : List GenFinding
  log_injection : List GenFinding
deriving DecidableEq, Repr

/-- Embeds `CodeAnalyzer._detect_security_issues`. -/
def detectSecurityIssues (code : String) : SecurityIssues :=
  let cs := code.data
  { sql_injection :=
      genFindings sqlInjectionPat
        "Potential SQL injection vulnerability. Use prepared statements with parameters." cs,
    hardcoded_credentials :=
      genFindings hardcodedCredsPat
        "Hardcoded credentials are a security risk. Use secure configuration methods." cs,
    insecure_randoms :=
      genFindings insecureRandomPat
        "java.util.Random is not cryptographically secure. Use SecureRandom for security purposes." cs,
    xxe_vulnerability :=
      genFindings xxePat
        "Potential XXE vulnerability. Enable secure processing and disable external entities." cs,
    log_injection :=
      genFindings logInjectionPat
        "Potential log injection. Sanitize user input before logging." cs }

structure PerformanceIssues where
  string_concatenation_in_loop : List GenFinding
  instantiation_in_loop : List GenFinding
  inefficient_string_conversion : List GenFinding
deriving DecidableEq, Repr

/-- Embeds `CodeAnalyzer._detect_performance_issues`. -/
def detectPerformanceIssues (code : String) : PerformanceIssues :=
  let cs := code.data
  { string_concatenation_in_loop :=
      genFindings strConcatLoopPat
        "String concatenation in loops is inefficient. Use StringBuilder instead." cs,
    instantiation_in_loop :=
      genFindings instLoopPat
        "Object instantiation inside loops can be inefficient. Consider moving outside the loop." cs,
    inefficient_string_conversion :=
      genFindings ineffStrPat
        "Inefficient string conversion. Use the string directly or the toString() result." cs }

structure DesignPatterns where
  singleton : List GenFinding
  factory_method : List GenFinding
  observer : List GenFinding
  builder : List GenFinding
  decorator : List GenFinding
deriving DecidableEq, Repr

/-- Embeds `CodeAnalyzer._detect_design_patterns`; the source's per-pattern
`try/except` can never take the except path here because the matcher is
total. -/
def detectDesignPatterns (code : String) : DesignPatterns :=
  let cs := code.data
  { singleton :=
      genFindings singletonPat
        "Singleton pattern: A class with a single instance that provides global access." cs,
    factory_method :=
      genFindings factoryPat
        "Factory Method pattern: Creates objects without specifying the exact class to create." cs,
    observer :=
      genFindings observerPat
        "Observer pattern: Defines one-to-many dependency between objects." cs,
    builder :=
      genFindings builderPat
        "Builder pattern: Separates object construction from its representation." cs,
    decorator :=
      genFindings decoratorPatRE
        "Decorator pattern: Attaches additional responsibilities to objects dynamically." cs }

structure Metrics where
  total_lines : Nat
  code_lines : Nat
  comment_lines : Nat
  class_count : Nat
  interface_count : Nat
  method_count : Nat
deriving DecidableEq, Repr

/-- Source pattern (method_count):
`(?:public|private|protected)\s+(?:static\s+)?(?:\w+)\s+(\w+)\s*\([^)]*\)` -/
def methodCountPat : RE :=
  .seq (.alt (lits "public") (.alt (lits "private") (lits "protected")))
  (.seq ws1
  (.seq (.opt (.seq (lits "static") ws1))
  (.seq wordP
  (.seq ws1
  (.seq (.grp 1 wordP)
  (.seq wsP
  (.seq (.lit ['('])
  (.seq (.star (.cls fun c => c != ')')) (.lit [')'])))))))))

/-- Embeds `CodeAnalyzer._calculate_metrics`. -/
def calculateMetrics (code : String) : Metrics :=
  let cs := code.data
  let lines := splitChar '\n' cs
  { total_lines := lines.length,
    code_lines := (lines.filter fun l =>
      let s := stripStr l
      !s.isEmpty && !isPrefixB "//".data s && !isPrefixB "/*".data s).length,
    comment_lines := (lines.filter fun l =>
      let s := stripStr l
      isPrefixB "//".data s || isPrefixB "/*".data s).length,
    class_count := (finditer (.seq (lits "class") (.seq ws1 wordP)) cs).length,
    interface_count := (finditer (.seq (lits "interface") (.seq ws1 wordP)) cs).length,
    method_count := (finditer methodCountPat cs).length }

structure Complexity where
  cyclomatic_complexity : Nat
  cognitive_complexity : Int
  max_nesting_depth : Int
  branch_if : Nat
  branch_else : Nat
  branch_for : Nat
  branch_while : Nat
  branch_case : Nat
  branch_catch : Nat
  complexity_rating : String
deriving DecidableEq, Repr

/-- Embeds `CodeAnalyzer._estimate_complexity`.  The branch-count patterns carry a
leading `\b` (hence `finditerB`); `\belse\b` also has a trailing `\b`,
which after the word character e is the next-not-word test `nwb`. -/
def estimateComplexity (code : String) : Complexity :=
  let cs := code.data
  let if_count := (finditerB (.seq (lits "if") (.seq wsP (.lit ['(']))) cs).length
  let else_count := (finditerB (.seq (lits "else") .nwb) cs).length
  let for_count := (finditerB (.seq (lits "for") (.seq wsP (.lit ['(']))) cs).length
  let while_count := (finditerB (.seq (lits "while") (.seq wsP (.lit ['(']))) cs).length
  let case_count := (finditerB (.seq (lits "case") ws1) cs).length
  let catch_count := (finditerB (.seq (lits "catch") (.seq wsP (.lit ['(']))) cs).length
  let cyclomatic := 1 + if_count + else_count + for_count + while_count + case_count + catch_count
  let lines := splitChar '\n' cs
  let scan := lines.foldl
    (fun (acc : Int × Int) line =>
      let stripped := stripStr line
      if stripped.isEmpty then acc
      else
        let lvl := if isPrefixB [rb] stripped then acc.1 - 1 else acc.1
        let mx := max acc.2 lvl
        let lvl := if isSuffixB [lb] stripped then lvl + 1 else lvl
        (lvl, mx)) (0, 0)
  let max_indent := scan.2
  let cognitive := (cyclomatic : Int) + max_indent * 2
  let rating :=
    if cyclomatic ≤ 5 then "Low"
    else if cyclomatic ≤ 10 then "Moderate"
    else if cyclomatic ≤ 20 then "High"
    else "Very High"
  { cyclomatic_complexity := cyclomatic,
    cognitive_complexity := cognitive,
    max_nesting_depth := max_indent,
    branch_if := if_count, branch_else := else_count, branch_for := for_count,
    branch_while := while_count, branch_case := case_count, branch_catch := catch_count,
    complexity_rating := rating }

structure FileResult where
  file_path : String
  metrics : Metrics
  code_smells : CodeSmells
  security_issues : SecurityIssues
  performance_issues : PerformanceIssues
  design_patterns : DesignPatterns
  complexity : Complexity
deriving DecidableEq, Repr

/-- Embeds `CodeAnalyzer.analyze_file`. -/
def analyzeFile (file_content : String) (file_path : String) : FileResult :=
  { file_path := file_path,
    metrics := calculateMetrics file_content,
    code_smells := detectCodeSmells file_content,
    security_issues := detectSecurityIssues file_content,
    performance_issues := detectPerformanceIssues file_content,
    design_patterns := detectDesignPatterns file_content,
    complexity := estimateComplexity file_content }

/-- Sum of the finding-list lengths over the smell dictionary's values. -/
def smellTotal (s : CodeSmells) : Nat :=
  s.long_method.length + s.too_many_parameters.length + s.catch_exception.length +
  s.public_fields.length + s.magic_numbers.length + s.todo_comments.length +
  s.empty_catch.length + s.complex_conditional.length

def securityTotal (s : SecurityIssues) : Nat :=
  s.sql_injection.length + s.hardcoded_credentials.length + s.insecure_randoms.length +
  s.xxe_vulnerability.length + s.log_injection.length

def performanceTotal (p : PerformanceIssues) : Nat :=
  p.string_concatenation_in_loop.length + p.instantiation_in_loop.length +
  p.inefficient_string_conversion.length

/-- Design-pattern names with a non-empty finding list, in the catalog's
dictionary order. -/
def detectedPatternNames (d : DesignPatterns) : List String :=
  (if d.singleton.isEmpty then [] else ["singleton"]) ++
  (if d.factory_method.isEmpty then [] else ["factory_method"]) ++
  (if d.observer.isEmpty then [] else ["observer"]) ++
  (if d.builder.isEmpty then [] else ["builder"]) ++
  (if d.decorator.isEmpty then [] else ["decorator"])

/-- Python `set.add` modelled with insertion order (the source converts the
set to a list only for serialization; no claim depends on that order). -/
def addName (l : List String) (n : String) : List String :=
  if l.contains n then l else l ++ [n]

structure JFile where
  file_path : String
  content : String
deriving DecidableEq, Repr

/-- The folder-aggregation accumulator (the source's `all_metrics` dict).
`avg_complexity` holds the running sum of cyclomatic complexities until the
final division; `code_smell_density` is the key the source adds only when
at least one file matched. -/
structure FolderMetrics where
  total_files : Nat := 0
  total_lines : Nat := 0
  total_classes : Nat := 0
  total_methods : Nat := 0
  avg_complexity : ℚ := 0
  total_code_smells : Nat := 0
  total_security_issues : Nat := 0
  total_performance_issues : Nat := 0
  detected_design_patterns : List String := []
  code_smell_density : Option ℚ := none
deriving DecidableEq, Repr

/-- One iteration of the file loop in `CodeAnalyzer.analyze_folder`: files
whose path does not start with the folder path are skipped entirely. -/
def folderStep (folder_path : String) (acc : FolderMetrics × List FileResult)
    (f : JFile) : FolderMetrics × List FileResult :=
  if pyStarts f.file_path folder_path then
    let r := analyzeFile f.content f.file_path
    let m := acc.1
    ({ m with
       total_files := m.total_files + 1,
       total_lines := m.total_lines + r.metrics.total_lines,
       total_classes := m.total_classes + r.metrics.class_count,
       total_methods := m.total_methods + r.metrics.method_count,
       avg_complexity := m.avg_complexity + (r.complexity.cyclomatic_complexity : ℚ),
       total_code_smells := m.total_code_smells + smellTotal r.code_smells,
       total_security_issues := m.total_security_issues + securityTotal r.security_issues,
       total_performance_issues :=
         m.total_performance_issues + performanceTotal r.performance_issues,
       detected_design_patterns :=
         (detectedPatternNames r.design_patterns).foldl addName m.detected_design_patterns },
     acc.2 ++ [r])
  else acc

structure FolderResult where
  folder_path : String
  metrics : FolderMetrics
  file_results : List FileResult
deriving DecidableEq, Repr

/-- Embeds `CodeAnalyzer.analyze_folder`: filter by path, aggregate, then divide
the complexity sum by the file count only when it is positive. -/
def analyzeFolder (folder_path : String) (java_files : List JFile) : FolderResult :=
  let out := java_files.foldl (folderStep folder_path) ({}, [])
  let m := out.1
  let m :=
    if 0 < m.total_files then
      { m with
        avg_complexity := m.avg_complexity / (m.total_files : ℚ),
        code_smell_density :=
          some (if 0 < m.total_lines then
                  (m.total_code_smells : ℚ) / (m.total_lines : ℚ) else 0) }
    else m
  { folder_path := folder_path, metrics := m, file_results := out.2 }

deriving instance DecidableEq for Except

/-! ## Concrete inputs used by the claim theorems -/

/-- The end-to-end Java scenario input: `Person`, interface `IPayable`
with one abstract method, and `Employee extends Person implements
IPayable` with one private `double salary` field and one `getSalary`
method (braces written as their character-code escapes). -/
def javaSrcC8 : String :=
  "class Person \x7b \x7d\ninterface IPayable \x7b public abstract double getPay(); \x7d\nclass Employee extends Person implements IPayable \x7b private double salary; public double getSalary()\x7b...\x7d \x7d"

/-- JavaScript input declaring `class A extends B` where `B` is declared
nowhere in the input. -/
def jsSrcC1 : String := "class A extends B \x7b\x7d"

/-- Java input whose only extends target is itself declared. -/
def javaSrcC1 : String := "class A extends C \x7b \x7d\nclass C \x7b \x7d"

/-- Python module declaring `class A(C)` and `class C`, with one method. -/
def pyTreeC1 : List PyStmt :=
  [.classDef "A" [.name "C"] [] [], .classDef "C" [] [] []]

/-- Python module whose class has a dunder-named attribute (an `Assign`
statement `__x__ = ...`). -/
def pyTreeC7 : List PyStmt :=
  [.classDef "A" [] [] [.assign [.name "__x__"]]]

/-- Python module with members exercising the visibility rules and the
self/cls parameter filter. -/
def pyTreeW : List PyStmt :=
  [.classDef "A" [] []
    [.assign [.name "_x"],
     .functionDef "go" [⟨"self", none⟩, ⟨"k", some (.name "int")⟩, ⟨"cls", none⟩] [] none []]]

/-- The serialized document with an out-of-range visibility symbol and an
out-of-range relationship kind, parameterized by those two strings. -/
def looseDoc (vis kind : String) : JValue :=
  .jobj [("classes", .jarr [.jobj [("name", .jstr "A"),
           ("attributes", .jarr [.jobj [("name", .jstr "a"), ("visibility", .jstr vis)]])]]),
         ("relationships", .jarr [.jobj [("source", .jstr "A"), ("target", .jstr "B"),
           ("type", .jstr kind)]])]

/-- The model the loader builds from `looseDoc`. -/
def looseModel (vis kind : String) : UMLDiagram :=
  { classes := [{ name := "A", attributes := [{ name := "a", visibility := vis }] }],
    relationships := [{ source := "A", target := "B", type := kind }] }

end JUML

/-! ## Theorems -/

set_option maxRecDepth 200000

namespace JUML

/-- A property preserved by every step of a fold holds of its result. -/
theorem foldl_preserve {α β : Type _} {step : β → α → β} {P : β → Prop}
    (h : ∀ b a, P b → P (step b a)) :
    ∀ (l : List α) (b : β), P b → P (l.foldl step b) := by
  intro l
  induction l with
  | nil => intro b hb; exact hb
  | cons a t ih => intro b hb; exact ih _ (h _ _ hb)

/-- A conditional-append fold is the filtered map appended to the seed. -/
theorem foldl_ite_append {α β : Type _} (p : α → Prop) [DecidablePred p] (f : α → β) :
    ∀ (l : List α) (init : List β),
      (l.foldl (fun acc x => if p x then acc ++ [f x] else acc) init)
        = init ++ (l.filter fun x => decide (p x)).map f := by
  intro l
  induction l with
  | nil => intro init; simp
  | cons a t ih =>
    intro init
    by_cases ha : p a
    · simp [List.foldl_cons, ha, ih]
    · simp [List.foldl_cons, ha, ih]

/-- The fold skipping on a boolean guard is the negated-filter map. -/
theorem foldl_skip_append {α β : Type _} (g : α → Bool) (f : α → β) :
    ∀ (l : List α) (init : List β),
      (l.foldl (fun acc x => if g x then acc else acc ++ [f x]) init)
        = init ++ (l.filter fun x => !g x).map f := by
  intro l
  induction l with
  | nil => intro init; simp
  | cons a t ih =>
    intro init
    by_cases ha : g a = true
    · simp [List.foldl_cons, ha, ih]
    · simp [List.foldl_cons, ha, ih]

/-- Claim C8: on the end-to-end Java scenario input, the extracted model
has exactly 3 class definitions (Employee non-abstract, Person, IPayable
with the interface flag) and exactly the 2 relationships
Employee-inherits-Person and Employee-implements-IPayable; Employee's
attributes are exactly one private non-static `salary : double` and its
methods exactly one `getSalary : double` with zero parameters. -/
theorem C8_java_end_to_end :
    (javaParse javaSrcC8).classes.length = 3 ∧
    (javaParse javaSrcC8).relationships =
      [{ source := "Employee", target := "Person", type := "inheritance" },
       { source := "Employee", target := "IPayable", type := "implementation" }] ∧
    ((javaParse javaSrcC8).classes.find? fun c => c.name == "Employee") =
      some { name := "Employee",
             attributes := [{ name := "salary", type := "double", visibility := "-" }],
             methods := [{ name := "getSalary", return_type := "double", visibility := "+" }] } ∧
    (((javaParse javaSrcC8).classes.find? fun c => c.name == "Person")).isSome = true ∧
    (((javaParse javaSrcC8).classes.find? fun c => c.name == "IPayable")).map
        (fun c => c.is_interface) = some true := by
  decide

/-- Claim C6: the pattern-based extractors are total functions into
models (nothing in their bodies can fail, mirrored by their Lean type),
and an input with no class-signature match yields the empty model. -/
theorem C6_pattern_extractors_empty (code : String) :
    (finditer javaClassPat code.data = [] →
      javaParse code = { classes := [], relationships := [] }) ∧
    (finditer jsClassPat code.data = [] →
      jsParse code = { classes := [], relationships := [] }) := by
  constructor
  · intro h
    simp [javaParse, h]
  · intro h
    simp [jsParse, h]

/-- Witness for C6 at a malformed input with no class signature. -/
theorem C6_witness :
    javaParse "hello world" = { classes := [], relationships := [] } ∧
    jsParse "hello world" = { classes := [], relationships := [] } :=
  ⟨(C6_pattern_extractors_empty "hello world").1 (by decide),
   (C6_pattern_extractors_empty "hello world").2 (by decide)⟩

/-- Claim C2 (counterexample): the loader accepts a document whose
attribute visibility is the symbol x and whose relationship kind is
friendship, returning a fully populated model instead of failing — so it
does not reject out-of-range visibility symbols or relationship kinds. -/
theorem C2_counterexample :
    manualParse (looseDoc "x" "friendship") = .ok (looseModel "x" "friendship") := by
  rfl

/-- Claim C2 (amended): the loader converts atomically — it returns a
complete model or fails with no model — and it validates presence and
primitive types of fields, but places no constraint on the visibility
symbol or the relationship kind: every pair of strings is accepted. -/
theorem C2_amended (vis kind : String) :
    manualParse (looseDoc vis kind) = .ok (looseModel vis kind) := by
  rfl

/-- Claim C1 (counterexample): the JavaScript extractor records an
inheritance relationship to the extends target `B` even though `B` is not
declared as a class anywhere in the input. -/
theorem C1_counterexample :
    { source := "A", target := "B", type := "inheritance" : Relationship } ∈
      (jsParse jsSrcC1).relationships ∧
    "B".data ∉ jsClassNamesOf jsSrcC1 := by
  decide

/-- Parsing back a dumped parameter dictionary returns it. -/
theorem exPairs_dump (d : PDict) :
    exPairs (d.map fun e => (e.1, JValue.jstr e.2)) = .ok d := by
  induction d with
  | nil => rfl
  | cons e t ih => simp only [List.map_cons, exPairs, asStr, ih]

theorem parsePDict_dump (d : PDict) : parsePDict (dumpPDict d) = .ok d :=
  exPairs_dump d

/-- Element-wise conversion inverts element-wise dumping. -/
theorem exList_dump {α : Type _} (f : JValue → Except String α) (dump : α → JValue)
    (h : ∀ a, f (dump a) = .ok a) : ∀ l : List α, exList f (l.map dump) = .ok l := by
  intro l
  induction l with
  | nil => rfl
  | cons a t ih => simp only [List.map_cons, exList, h, ih]

theorem parseAttribute_dump (a : Attribute) : parseAttribute (dumpAttr a) = .ok a := rfl

theorem parseMethod_dump (m : Method) : parseMethod (dumpMethod m) = .ok m := by
  have h := exList_dump parsePDict dumpPDict parsePDict_dump m.parameters
  have key : parseMethod (dumpMethod m) =
      match exList parsePDict (m.parameters.map dumpPDict) with
      | .error e => .error e
      | .ok ps => .ok { name := m.name, return_type := m.return_type, parameters := ps,
                        visibility := m.visibility, is_static := m.is_static,
                        is_abstract := m.is_abstract } := rfl
  rw [key, h]

theorem parseRelationship_dump (r : Relationship) :
    parseRelationship (dumpRel r) = .ok r := rfl

theorem parseClassDef_dump (c : ClassDefinition) :
    parseClassDef (classToDict c) = .ok c := by
  obtain ⟨cname, attrs, meths, ab, intf, pkg⟩ := c
  have ha := exList_dump parseAttribute dumpAttr parseAttribute_dump attrs
  have hm := exList_dump parseMethod dumpMethod parseMethod_dump meths
  cases pkg with
  | some s =>
    have key : parseClassDef (classToDict ⟨cname, attrs, meths, ab, intf, some s⟩) =
        match exList parseAttribute (attrs.map dumpAttr) with
        | .error e => .error e
        | .ok as_ =>
          match exList parseMethod (meths.map dumpMethod) with
          | .error e => .error e
          | .ok ms_ => .ok ⟨cname, as_, ms_, ab, intf, some s⟩ := rfl
    rw [key, ha, hm]
  | none =>
    have key : parseClassDef (classToDict ⟨cname, attrs, meths, ab, intf, none⟩) =
        match exList parseAttribute (attrs.map dumpAttr) with
        | .error e => .error e
        | .ok as_ =>
          match exList parseMethod (meths.map dumpMethod) with
          | .error e => .error e
          | .ok ms_ => .ok ⟨cname, as_, ms_, ab, intf, none⟩ := rfl
    rw [key, ha, hm]

/-- The oversized-method findings are the matches filtered by the strict
threshold comparison. -/
theorem long_method_eq (code : String) :
    (detectCodeSmells code).long_method
      = ((finditer longMethodPat code.data).filter
          fun x => decide (30 < longLineCount x)).map longFindingOf := by
  have h := foldl_ite_append (fun x => 30 < longLineCount x) longFindingOf
    (finditer longMethodPat code.data) []
  simpa [detectCodeSmells] using h

/-- The excess-parameters findings are the matches filtered by the strict
threshold comparison. -/
theorem too_many_parameters_eq (code : String) :
    (detectCodeSmells code).too_many_parameters
      = ((finditer tooManyParamsPat code.data).filter
          fun x => decide (5 < paramCountOf x)).map paramFindingOf := by
  have h := foldl_ite_append (fun x => 5 < paramCountOf x) paramFindingOf
    (finditer tooManyParamsPat code.data) []
  simpa [detectCodeSmells] using h

/-- The magic-number findings are the matches whose captured literal does
not match the exclusion pattern. -/
theorem magic_numbers_eq (code : String) :
    (detectCodeSmells code).magic_numbers
      = ((finditer magicNumPat code.data).filter
          fun x => !magicIsExcluded x).map magicFindingOf := by
  have h := foldl_skip_append magicIsExcluded magicFindingOf
    (finditer magicNumPat code.data) []
  simpa [detectCodeSmells] using h

/-- Claim C4: for every input, a matched method produces an
oversized-method finding exactly when its measured line count strictly
exceeds 30, and an excess-parameters finding exactly when its counted
parameters strictly exceed 5; equality with the threshold produces no
finding. -/
theorem C4_thresholds (code : String) (m : RMatch) :
    (m ∈ finditer longMethodPat code.data →
      (longFindingOf m ∈ (detectCodeSmells code).long_method ↔ 30 < longLineCount m)) ∧
    (m ∈ finditer tooManyParamsPat code.data →
      (paramFindingOf m ∈ (detectCodeSmells code).too_many_parameters ↔
        5 < paramCountOf m)) := by
  constructor
  · intro hmem
    rw [long_method_eq]
    constructor
    · intro hin
      obtain ⟨m1, hm1, heq⟩ := List.mem_map.mp hin
      obtain ⟨_, hcond⟩ := List.mem_filter.mp hm1
      have hlines : longLineCount m1 = longLineCount m :=
        congrArg LongFinding.lines heq
      rw [← hlines]
      exact of_decide_eq_true (by simpa using hcond)
    · intro h30
      exact List.mem_map_of_mem _ (List.mem_filter.mpr ⟨hmem, by simpa using h30⟩)
  · intro hmem
    rw [too_many_parameters_eq]
    constructor
    · intro hin
      obtain ⟨m1, hm1, heq⟩ := List.mem_map.mp hin
      obtain ⟨_, hcond⟩ := List.mem_filter.mp hm1
      have hcount : paramCountOf m1 = paramCountOf m :=
        congrArg ParamFinding.parameter_count heq
      rw [← hcount]
      exact of_decide_eq_true (by simpa using hcond)
    · intro h5
      exact List.mem_map_of_mem _ (List.mem_filter.mpr ⟨hmem, by simpa using h5⟩)

/-- The matched oversized-method candidate of the C4 witness input. -/
def c4LongCode : String := "public int f()\x7b\x7d"

def c4LongMatch : RMatch :=
  ⟨0, [(0, "public int f()\x7b\x7d".data), (1, "f".data)]⟩

/-- The matched six-parameter method of the C4 witness input. -/
def c4ParamCode : String := "public void six(int a,int b,int c,int d,int e,int f)"

def c4ParamMatch : RMatch :=
  ⟨0, [(0, c4ParamCode.data), (2, "int a,int b,int c,int d,int e,int f".data),
       (1, "six".data)]⟩

/-- Witness for C4: a matched zero-line method yields no finding, a
matched six-parameter method yields one. -/
theorem C4_witness :
    (c4LongMatch ∈ finditer longMethodPat c4LongCode.data ∧
      (longFindingOf c4LongMatch ∈ (detectCodeSmells c4LongCode).long_method ↔
        30 < longLineCount c4LongMatch)) ∧
    (c4ParamMatch ∈ finditer tooManyParamsPat c4ParamCode.data ∧
      (paramFindingOf c4ParamMatch ∈ (detectCodeSmells c4ParamCode).too_many_parameters ↔
        5 < paramCountOf c4ParamMatch)) :=
  ⟨⟨by decide, (C4_thresholds c4LongCode c4LongMatch).1 (by decide)⟩,
   ⟨by decide, (C4_thresholds c4ParamCode c4ParamMatch).2 (by decide)⟩⟩

/-- A magic-number match that survived the exclusion filter cannot carry a
literal the exclusion pattern accepts. -/
theorem magic_not_excluded_ne (m : RMatch) (hex : magicIsExcluded m = false)
    (s : String) (hs : (reMatchAt magicExcludePat s.data).isSome = true) :
    String.mk ((m.group 1).getD []) ≠ s := by
  intro h
  have hd : (m.group 1).getD [] = s.data := by
    have h2 := congrArg String.data h
    simpa using h2
  rw [magicIsExcluded, hd, hs] at hex
  exact Bool.true_eq_false.mp hex

/-- Claim C5: the magic-number heuristic never reports the literals 0, 1,
-1 or 100, and on the input `x = 42;` it reports the literal 42. -/
theorem C5_magic :
    (∀ (code : String) (f : MagicFinding), f ∈ (detectCodeSmells code).magic_numbers →
      f.number ≠ "0" ∧ f.number ≠ "1" ∧ f.number ≠ "-1" ∧ f.number ≠ "100") ∧
    { number := "42", description := magicNumDesc } ∈
      (detectCodeSmells "x = 42;").magic_numbers := by
  constructor
  · intro code f hf
    rw [magic_numbers_eq] at hf
    obtain ⟨m, hm, heq⟩ := List.mem_map.mp hf
    have hex : magicIsExcluded m = false := by
      have h2 := (List.mem_filter.mp hm).2
      simpa using h2
    have hnum : f.number = String.mk ((m.group 1).getD []) := by
      rw [← heq]; rfl
    rw [hnum]
    exact ⟨magic_not_excluded_ne m hex "0" (by decide),
           magic_not_excluded_ne m hex "1" (by decide),
           magic_not_excluded_ne m hex "-1" (by decide),
           magic_not_excluded_ne m hex "100" (by decide)⟩
  · decide

/-- Witness for C5: the finding reported for 42 is none of the excluded
literals. -/
theorem C5_witness :
    ({ number := "42", description := magicNumDesc } : MagicFinding).number ≠ "0" ∧
    ({ number := "42", description := magicNumDesc } : MagicFinding).number ≠ "1" ∧
    ({ number := "42", description := magicNumDesc } : MagicFinding).number ≠ "-1" ∧
    ({ number := "42", description := magicNumDesc } : MagicFinding).number ≠ "100" :=
  C5_magic.1 "x = 42;" { number := "42", description := magicNumDesc } (by decide)

/-- Every relationship the Python extractor emits targets a name from the
first-pass walk. -/
theorem pyRelsOf_target (names : List String) (cname : String) :
    ∀ (bases : List PyExpr) (rs : List Relationship),
      (∀ r ∈ rs, r.target ∈ names) →
      ∀ r ∈ pyRelsOf names cname bases rs, r.target ∈ names := by
  intro bases rs h
  refine foldl_preserve
    (P := fun (rs1 : List Relationship) => ∀ r ∈ rs1, r.target ∈ names) ?_ bases rs h
  intro rs1 b hrs1 r hr
  cases b with
  | name bid =>
    by_cases hc : bid ∈ names
    · simp [hc] at hr
      rcases hr with h1 | rfl
      · exact hrs1 r h1
      · exact hc
    · simp [hc] at hr
      exact hrs1 r hr
  | noneConst => exact hrs1 r hr
  | subscript v => exact hrs1 r hr
  | exprOther => exact hrs1 r hr

theorem pythonParse_rel_target (tree : List PyStmt) :
    ∀ r ∈ (pythonParse tree).relationships,
      r.target ∈ (walkClasses tree).map (·.cname) := by
  show ∀ r ∈ ((walkClasses tree).foldl (pyStep ((walkClasses tree).map (·.cname))) ([], [])).2,
      r.target ∈ (walkClasses tree).map (·.cname)
  refine foldl_preserve
    (P := fun (acc : List ClassDefinition × List Relationship) =>
      ∀ r ∈ acc.2, r.target ∈ (walkClasses tree).map (·.cname)) ?_
    (walkClasses tree) ([], []) (by simp)
  intro acc node h
  exact pyRelsOf_target _ _ node.bases acc.2 h

/-- The implements fold of the Java relationship stage only appends
targets from the name set. -/
theorem javaImplFold_target (names : List Str) (className : Str) (s : Str) :
    ∀ (rels : List Relationship), (∀ r ∈ rels, r.target.data ∈ names) →
    ∀ r ∈ (splitChar ',' s).foldl
        (fun rs i =>
          if names.contains (stripStr i) then
            rs ++ [{ source := String.mk className, target := String.mk (stripStr i),
                     type := "implementation" : Relationship }]
          else rs) rels, r.target.data ∈ names := by
  intro rels h
  refine foldl_preserve
    (P := fun (rs1 : List Relationship) => ∀ r ∈ rs1, r.target.data ∈ names) ?_ _ rels h
  intro rs1 i h1 r hr
  by_cases hc : stripStr i ∈ names
  · simp [hc] at hr
    rcases hr with h2 | rfl
    · exact h1 r h2
    · exact hc
  · simp [hc] at hr
    exact h1 r hr

theorem javaRelsOf_target (names : List Str) (className : Str) (ext impl : Option Str)
    (rels : List Relationship) (h : ∀ r ∈ rels, r.target.data ∈ names) :
    ∀ r ∈ javaRelsOf names className ext impl rels, r.target.data ∈ names := by
  cases ext with
  | none =>
    cases impl with
    | none => exact h
    | some s => exact javaImplFold_target names className s rels h
  | some e =>
    have hbase : ∀ r ∈ (if names.contains e then
        rels ++ [{ source := String.mk className, target := String.mk e,
                   type := "inheritance" : Relationship }] else rels),
        r.target.data ∈ names := by
      intro r hr
      by_cases hc : e ∈ names
      · simp [hc] at hr
        rcases hr with h1 | rfl
        · exact h r h1
        · exact hc
      · simp [hc] at hr
        exact h r hr
    cases impl with
    | none => exact hbase
    | some s => exact javaImplFold_target names className s _ hbase

/-- The second component of a Java second-pass step is its relationship
stage, whichever way the body lookup goes. -/
theorem javaStep_snd (cs : Str) (names : List Str)
    (acc : List ClassDefinition × List Relationship) (m : RMatch) :
    (javaStep cs names acc m).2
      = javaRelsOf names ((m.group 4).getD []) (m.group 6) (m.group 8) acc.2 := by
  unfold javaStep
  simp only
  split
  · rfl
  · split <;> rfl

theorem javaParse_rel_target (code : String) :
    ∀ r ∈ (javaParse code).relationships, r.target.data ∈ javaClassNames code.data := by
  show ∀ r ∈ ((finditer javaClassPat code.data).foldl
        (javaStep code.data ((finditer javaClassPat code.data).map
          fun m => (m.group 4).getD [])) ([], [])).2,
      r.target.data ∈ javaClassNames code.data
  refine foldl_preserve
    (P := fun (acc : List ClassDefinition × List Relationship) =>
      ∀ r ∈ acc.2, r.target.data ∈ javaClassNames code.data) ?_
    (finditer javaClassPat code.data) ([], []) (by simp)
  intro acc m h
  rw [javaStep_snd]
  exact javaRelsOf_target _ _ _ _ acc.2 h

/-- Claim C1 (amended): for the Python and Java extractors, a base or
interface name not declared in the same input never appears as a
relationship target; the JavaScript extractor does not follow this rule
(see its counterexample). -/
theorem C1_two_pass_rule :
    (∀ (tree : List PyStmt) (B : String),
        B ∉ (walkClasses tree).map (·.cname) →
        ∀ r ∈ (pythonParse tree).relationships, r.target ≠ B) ∧
    (∀ (code : String) (B : String),
        B.data ∉ javaClassNames code.data →
        ∀ r ∈ (javaParse code).relationships, r.target ≠ B) := by
  constructor
  · intro tree B hB r hr heq
    exact hB (heq ▸ pythonParse_rel_target tree r hr)
  · intro code B hB r hr heq
    have h1 := javaParse_rel_target code r hr
    rw [heq] at h1
    exact hB h1

/-- Witness for C1 at inputs whose only relationships target declared
classes. -/
theorem C1_witness :
    (∀ r ∈ (pythonParse pyTreeC1).relationships, r.target ≠ "External") ∧
    (∀ r ∈ (javaParse javaSrcC1).relationships, r.target ≠ "Zzz") :=
  ⟨C1_two_pass_rule.1 pyTreeC1 "External" (by decide),
   C1_two_pass_rule.2 javaSrcC1 "Zzz" (by decide)⟩

/-- Member lists produced from one Python class body follow the
name-convention visibility rules, and their method parameters never keep
self or cls. -/
theorem pyMembersOf_spec (body : List PyStmt) :
    (∀ a ∈ (pyMembersOf body).1, a.visibility = pyAttrVisibility a.name) ∧
    (∀ m ∈ (pyMembersOf body).2,
      m.visibility = pyMethodVisibility m.name ∧
      ∀ p ∈ m.parameters, ∃ n t, p = [("name", n), ("type", t)] ∧ n ≠ "self" ∧ n ≠ "cls") := by
  refine foldl_preserve
    (P := fun (acc : List Attribute × List Method) =>
      (∀ a ∈ acc.1, a.visibility = pyAttrVisibility a.name) ∧
      (∀ m ∈ acc.2,
        m.visibility = pyMethodVisibility m.name ∧
        ∀ p ∈ m.parameters, ∃ n t, p = [("name", n), ("type", t)] ∧ n ≠ "self" ∧ n ≠ "cls"))
    ?_ body ([], []) ⟨by simp, by simp⟩
  rintro ⟨as1, ms1⟩ item ⟨hA, hM⟩
  cases item with
  | annAssign tgt ann =>
    cases tgt with
    | name tid =>
      refine ⟨?_, hM⟩
      intro a ha
      simp at ha
      rcases ha with ha | rfl
      · exact hA a ha
      · rfl
    | noneConst => exact ⟨hA, hM⟩
    | subscript v => exact ⟨hA, hM⟩
    | exprOther => exact ⟨hA, hM⟩
  | assign targets =>
    refine ⟨?_, hM⟩
    refine foldl_preserve
      (P := fun (as2 : List Attribute) =>
        ∀ a ∈ as2, a.visibility = pyAttrVisibility a.name) ?_ targets as1 hA
    intro as2 t hA2 a ha
    cases t with
    | name tid =>
      simp at ha
      rcases ha with ha | rfl
      · exact hA2 a ha
      · rfl
    | noneConst => exact hA2 a ha
    | subscript v => exact hA2 a ha
    | exprOther => exact hA2 a ha
  | functionDef fname args decs returns fbody =>
    refine ⟨hA, ?_⟩
    intro m hm
    simp at hm
    rcases hm with hm | rfl
    · exact hM m hm
    · refine ⟨rfl, ?_⟩
      refine foldl_preserve
        (P := fun (ps : List PDict) => ∀ p ∈ ps,
          ∃ n t, p = [("name", n), ("type", t)] ∧ n ≠ "self" ∧ n ≠ "cls")
        ?_ args [] (by simp)
      intro ps a hps p hp
      by_cases hg : a.arg ≠ "self" ∧ a.arg ≠ "cls"
      · simp only [if_pos hg] at hp
        rcases List.mem_append.mp hp with h1 | h1
        · exact hps p h1
        · refine ⟨a.arg, _, by simpa using h1, hg.1, hg.2⟩
      · simp only [if_neg hg] at hp
        exact hps p hp
  | classDef n b d cbody => exact ⟨hA, hM⟩
  | stmtOther => exact ⟨hA, hM⟩

/-- Every class of a Python extraction carries member lists built by
`pyMembersOf` from some walked node's body. -/
theorem mem_pythonParse_classes (tree : List PyStmt) :
    ∀ c ∈ (pythonParse tree).classes,
      ∃ body : List PyStmt, c.attributes = (pyMembersOf body).1 ∧
        c.methods = (pyMembersOf body).2 := by
  show ∀ c ∈ ((walkClasses tree).foldl (pyStep ((walkClasses tree).map (·.cname))) ([], [])).1,
      ∃ body : List PyStmt, c.attributes = (pyMembersOf body).1 ∧
        c.methods = (pyMembersOf body).2
  refine foldl_preserve
    (P := fun (acc : List ClassDefinition × List Relationship) =>
      ∀ c ∈ acc.1, ∃ body : List PyStmt, c.attributes = (pyMembersOf body).1 ∧
        c.methods = (pyMembersOf body).2)
    ?_ (walkClasses tree) ([], []) (by simp)
  intro acc node h c hc
  have hc2 : c ∈ acc.1 ++ [pyClassOf node] := hc
  rcases List.mem_append.mp hc2 with h1 | h1
  · exact h c h1
  · have hce : c = pyClassOf node := by simpa using h1
    exact ⟨node.body, by rw [hce]; rfl, by rw [hce]; rfl⟩

/-- Claim C7 (amended): every extracted Python member's visibility follows
the name convention, where the dunder exemption from the private rule
applies to methods only — attributes use the plain prefix rule, so a
dunder-named attribute is marked private. -/
theorem C7_visibility_rules (tree : List PyStmt) (c : ClassDefinition)
    (hc : c ∈ (pythonParse tree).classes) :
    (∀ a ∈ c.attributes, a.visibility = pyAttrVisibility a.name) ∧
    (∀ m ∈ c.methods, m.visibility = pyMethodVisibility m.name) := by
  obtain ⟨body, ha, hm⟩ := mem_pythonParse_classes tree c hc
  constructor
  · rw [ha]
    exact (pyMembersOf_spec body).1
  · rw [hm]
    intro m hmm
    exact ((pyMembersOf_spec body).2 m hmm).1

/-- Claim C7 (counterexample): the attribute `__x__` — a dunder-style
name — is marked private (`-`) by the Python extractor: the dunder
exemption is not applied to attributes. -/
theorem C7_counterexample :
    (pythonParse pyTreeC7).classes =
      [{ name := "A",
         attributes := [{ name := "__x__", type := "", visibility := "-",
                          is_static := false }] }] := by
  decide

/-- The class extracted from the C7/C9 witness module. -/
def pyClassW : ClassDefinition :=
  { name := "A",
    attributes := [{ name := "_x", visibility := "#" }],
    methods := [{ name := "go", parameters := [[("name", "k"), ("type", "int")]] }] }

/-- Witness for C7 on a concrete extraction. -/
theorem C7_witness :
    (∀ a ∈ pyClassW.attributes, a.visibility = pyAttrVisibility a.name) ∧
    (∀ m ∈ pyClassW.methods, m.visibility = pyMethodVisibility m.name) :=
  C7_visibility_rules pyTreeW pyClassW (by decide)

/-- Claim C9: no method the Python extractor returns has a parameter
named self or cls — they are excluded wherever they occur in the
signature. -/
theorem C9_no_self_cls (tree : List PyStmt) (c : ClassDefinition) (m : Method)
    (p : PDict) (hc : c ∈ (pythonParse tree).classes) (hm : m ∈ c.methods)
    (hp : p ∈ m.parameters) :
    p.lookup "name" ≠ some "self" ∧ p.lookup "name" ≠ some "cls" := by
  obtain ⟨body, _, hms⟩ := mem_pythonParse_classes tree c hc
  rw [hms] at hm
  obtain ⟨n, t, hpe, hns, hnc⟩ := ((pyMembersOf_spec body).2 m hm).2 p hp
  rw [hpe]
  have hl : ([("name", n), ("type", t)] : PDict).lookup "name" = some n := by
    simp [List.lookup]
  rw [hl]
  constructor
  · intro hcon
    exact hns (by simpa using hcon)
  · intro hcon
    exact hnc (by simpa using hcon)

/-- Witness for C9 on a concrete extraction whose source signature
contained both self and cls. -/
theorem C9_witness :
    (([("name", "k"), ("type", "int")] : PDict).lookup "name" ≠ some "self") ∧
    (([("name", "k"), ("type", "int")] : PDict).lookup "name" ≠ some "cls") :=
  C9_no_self_cls pyTreeW pyClassW
    { name := "go", parameters := [[("name", "k"), ("type", "int")]] }
    [("name", "k"), ("type", "int")] (by decide) (by decide) (by decide)

/-- The file count accumulated by the folder fold is the seed's count plus
the number of files under the folder path. -/
theorem folderFold_total_files (fp : String) :
    ∀ (files : List JFile) (acc : FolderMetrics × List FileResult),
      ((files.foldl (folderStep fp) acc).1).total_files
        = acc.1.total_files + (files.filter fun f => pyStarts f.file_path fp).length := by
  intro files
  induction files with
  | nil => intro acc; simp
  | cons f t ih =>
    intro acc
    by_cases hf : pyStarts f.file_path fp = true
    · have hstep : (folderStep fp acc f).1.total_files = acc.1.total_files + 1 := by
        simp [folderStep, hf]
      simp only [List.foldl_cons, List.filter_cons, hf, if_true, List.length_cons, ih, hstep]
      omega
    · have hstep : folderStep fp acc f = acc := by
        simp [folderStep, hf]
      simp [List.foldl_cons, List.filter_cons, hf, ih, hstep]

/-- When no file is under the folder path, the fold returns its seed. -/
theorem folderFold_skip (fp : String) :
    ∀ (files : List JFile) (acc : FolderMetrics × List FileResult),
      (∀ f ∈ files, ¬ pyStarts f.file_path fp = true) →
      files.foldl (folderStep fp) acc = acc := by
  intro files
  induction files with
  | nil => intro acc _; rfl
  | cons f t ih =>
    intro acc hall
    have hf : ¬ pyStarts f.file_path fp = true := hall f (by simp)
    have hstep : folderStep fp acc f = acc := by simp [folderStep, hf]
    simp only [List.foldl_cons, hstep]
    exact ih acc fun g hg => hall g (by simp [hg])

/-- Claim C10: folder aggregation counts in total_files exactly the files
whose path starts with the folder prefix, and with zero matching files it
returns total_files 0 and avg_complexity 0 — the division by the file
count happens only under the positivity guard. -/
theorem C10_folder_aggregation (folder_path : String) (files : List JFile) :
    (analyzeFolder folder_path files).metrics.total_files
      = (files.filter fun f => pyStarts f.file_path folder_path).length ∧
    ((files.filter fun f => pyStarts f.file_path folder_path) = [] →
      (analyzeFolder folder_path files).metrics.total_files = 0 ∧
      (analyzeFolder folder_path files).metrics.avg_complexity = 0) := by
  have htot := folderFold_total_files folder_path files ({}, [])
  have h1 : (analyzeFolder folder_path files).metrics.total_files
      = (files.filter fun f => pyStarts f.file_path folder_path).length := by
    show (let out := files.foldl (folderStep folder_path) ({}, [])
      let m := out.1
      let m := if 0 < m.total_files then
          { m with
            avg_complexity := m.avg_complexity / (m.total_files : ℚ),
            code_smell_density :=
              some (if 0 < m.total_lines then
                      (m.total_code_smells : ℚ) / (m.total_lines : ℚ) else 0) }
        else m
      ({ folder_path := folder_path, metrics := m, file_results := out.2 } :
        FolderResult)).metrics.total_files
      = (files.filter fun f => pyStarts f.file_path folder_path).length
    simp only
    split
    · simpa using htot
    · simpa using htot
  refine ⟨h1, fun hnil => ⟨?_, ?_⟩⟩
  · rw [h1, hnil]
    rfl
  · have hall : ∀ f ∈ files, ¬ pyStarts f.file_path folder_path = true := by
      intro f hf
      exact List.filter_eq_nil_iff.mp hnil f hf
    have hfold := folderFold_skip folder_path files ({}, []) hall
    show (let out := files.foldl (folderStep folder_path) (({} : FolderMetrics), [])
      let m := out.1
      let m := if 0 < m.total_files then
          { m with
            avg_complexity := m.avg_complexity / (m.total_files : ℚ),
            code_smell_density :=
              some (if 0 < m.total_lines then
                      (m.total_code_smells : ℚ) / (m.total_lines : ℚ) else 0) }
        else m
      ({ folder_path := folder_path, metrics := m, file_results := out.2 } :
        FolderResult)).metrics.avg_complexity = 0
    simp only
    rw [hfold]
    rfl

/-- Witness for C10 with a file collection containing no file under the
folder path. -/
theorem C10_witness :
    (analyzeFolder "pkg" [{ file_path := "other/x.java", content := "int x;" }]).metrics.total_files = 0 ∧
    (analyzeFolder "pkg" [{ file_path := "other/x.java", content := "int x;" }]).metrics.avg_complexity = 0 :=
  (C10_folder_aggregation "pkg" [{ file_path := "other/x.java", content := "int x;" }]).2 (by decide)

/-- Claim C3: loading the serialization of any structural model returns
exactly that model, class and relationship order included. -/
theorem C3_roundtrip (m : UMLDiagram) : manualParse (serializeModel m) = .ok m := by
  have hc := exList_dump parseClassDef classToDict parseClassDef_dump m.classes
  have hr := exList_dump parseRelationship dumpRel parseRelationship_dump m.relationships
  have key : manualParse (serializeModel m) =
      match exList parseClassDef (m.classes.map classToDict) with
      | .error e => .error e
      | .ok cs =>
        match exList parseRelationship (m.relationships.map dumpRel) with
        | .error e => .error e
        | .ok rs => .ok { classes := cs, relationships := rs } := rfl
  rw [key, hc, hr]

end JUML
